import Mathlib

/-
  Verification development for the website-analyzer core (src/lib/analyze.mjs).

  The JavaScript values that the sanitize-and-impute layer manipulates are
  modelled by `JVal`: a JS number is a rational (`num`), `NaN` is `nan`, and
  both `null` and `undefined` (which the source only ever distinguishes
  through `== null` and truthiness, where they behave identically) are `null`.
  Strings that the source only tests for truthiness are `Option String`
  (`none` = null/undefined, `some ""` = the falsy empty string).

  Each numbered block of `sanitizeAndImpute` (analyze.mjs lines 619-819) is
  one `san*` function below; `sanitizeAndImpute` is their composition in
  source order.  `estimateTrafficClass`, the model-selection core of
  `detectBusinessModel`, `estimateMargin`, `safeFetch` and the html-selection
  logic of `analyzeWebsite` (lines 822-843) are embedded separately.
  DOM/regex-derived booleans and counts (cheerio selector results) enter the
  embedding as parameters.
-/

namespace WebsiteAnalyzer

/-- Model of a JavaScript value in a numeric field: a number, NaN, or
null/undefined (conflated; the source only distinguishes them through
`== null` checks and truthiness, which treat both alike). -/
inductive JVal where
  | null : JVal
  | nan : JVal
  | num : ℚ → JVal
deriving DecidableEq, Repr

namespace JVal

/-- Mirrors `isNumber` in analyze.mjs line 621:
`typeof v === 'number' && !Number.isNaN(v)`. -/
def isNumber : JVal → Bool
  | num _ => true
  | _ => false

/-- JS truthiness of such a value: numbers other than 0 are truthy,
0, NaN, null and undefined are falsy. -/
def truthy : JVal → Bool
  | num q => decide (q ≠ 0)
  | _ => false

end JVal

/-
  Kernel-computable arithmetic on ℚ.  The library's `Rat.add`/`mul`/`div` do
  not reduce inside the kernel, so the embedding uses `mkRat`-based
  operations; the `q*_eq` bridge lemmas below identify them with the
  ordinary field operations for use in proofs.
-/

/-- Addition on ℚ, computable by kernel reduction. -/
def qadd (a b : ℚ) : ℚ := mkRat (a.num * b.den + b.num * a.den) (a.den * b.den)

/-- Subtraction on ℚ, computable by kernel reduction. -/
def qsub (a b : ℚ) : ℚ := qadd a (-b)

/-- Multiplication on ℚ, computable by kernel reduction. -/
def qmul (a b : ℚ) : ℚ := mkRat (a.num * b.num) (a.den * b.den)

/-- Division of a rational by a positive integer literal, computable by
kernel reduction. -/
def qdivn (a : ℚ) (n : ℕ) : ℚ := mkRat a.num (a.den * n)

/-- Embedding of an integer into ℚ, computable by kernel reduction. -/
def qofInt (i : ℤ) : ℚ := mkRat i 1

/-- Embedding of a natural number into ℚ, computable by kernel reduction. -/
def qofNat (n : ℕ) : ℚ := mkRat n 1

/-- JS `Math.min` on two numbers (written out so that kernel reduction of
`decide` goes through). -/
def qmin (a b : ℚ) : ℚ := if a ≤ b then a else b

/-- JS `Math.max` on two numbers. -/
def qmax (a b : ℚ) : ℚ := if b ≤ a then a else b

/-- JS `Math.abs` on a number. -/
def qabs (q : ℚ) : ℚ := if q < 0 then -q else q

/-- Mirrors `clamp` in analyze.mjs line 620:
`(v) => (v == null ? null : Math.max(0, Math.min(100, v)))`.
`Math.max`/`Math.min` propagate NaN. -/
def jclamp : JVal → JVal
  | JVal.null => JVal.null
  | JVal.nan => JVal.nan
  | JVal.num q => JVal.num (qmax 0 (qmin 100 q))

/-- JS `Math.round`: round half towards positive infinity, i.e.
`⌊q + 1/2⌋`, written as a floor division of the reduced numerator and
denominator. -/
def jround (q : ℚ) : ℤ := Int.fdiv (2 * q.num + q.den) (2 * q.den)

/-- JS `v > c` for a numeric field value against a number literal
(NaN and null/undefined compare false against the positive constants used
in the source). -/
def jgt (v : JVal) (c : ℚ) : Bool :=
  match v with
  | JVal.num q => decide (c < q)
  | _ => false

/-- JS `v >= c` against a positive number literal (NaN, null and undefined
all compare false there). -/
def jge (v : JVal) (c : ℚ) : Bool :=
  match v with
  | JVal.num q => decide (c ≤ q)
  | _ => false

/-- JS `v < c` against the literal 0 (NaN, null and undefined compare
false). -/
def jlt (v : JVal) (c : ℚ) : Bool :=
  match v with
  | JVal.num q => decide (q < c)
  | _ => false

/-- JS `v || 0` followed by `Number(...)` on a numeric field: the numeric
value if it is a nonzero number, otherwise 0 (a 0 number also yields 0). -/
def jvalOrZero : JVal → ℚ
  | JVal.num q => q
  | _ => 0

/-- Decimal rendering of a rational for template-literal interpolation;
integral values render exactly as JS renders them. -/
def qstr (q : ℚ) : String :=
  if q.den = 1 then toString q.num else toString q.num ++ "/" ++ toString q.den

/-- Template-literal rendering of a numeric field value. -/
def jvalStr : JVal → String
  | JVal.null => "null"
  | JVal.nan => "NaN"
  | JVal.num q => qstr q

/-- JS truthiness of a string field (`none` = null/undefined). -/
def strTruthy : Option String → Bool
  | some s => !s.isEmpty
  | none => false

/-- JS falsiness of a string field, used by the `watchFields` loop. -/
def strFalsy (v : Option String) : Bool := !strTruthy v

/-- Mirrors the per-field imputation descriptor attached to `_imputed`:
`{estimated: bool, method: string}` or `{estimated: false, reason: string}`. -/
structure ImputationRecord where
  estimated : Bool
  method : Option String := none
  reason : Option String := none
deriving DecidableEq, Repr

/-- `summarySignals` score fields (analyze.mjs lines 928-959). -/
structure SummarySignals where
  seoScore : JVal := JVal.null
  accessibilityScore : JVal := JVal.null
  securityScore : JVal := JVal.null
  performanceEstimate : JVal := JVal.null
deriving DecidableEq, Repr

/-- The lighthouse result object (`runLighthouse`, lines 221-244); only the
numeric fields read or coerced by the sanitize layer are modelled. -/
structure Performance where
  performanceScore : JVal := JVal.null
  accessibilityScore : JVal := JVal.null
  seoScore : JVal := JVal.null
  lcp : JVal := JVal.null
  cls : JVal := JVal.null
  tbt : JVal := JVal.null
deriving DecidableEq, Repr

/-- The `htmlMetrics` fields read by the sanitize layer. -/
structure HtmlMetrics where
  title : Option String := none
  description : Option String := none
  h1_present : Bool := false
  images : JVal := JVal.null
deriving DecidableEq, Repr

/-- The `content` fields read by the sanitize layer; a header entry
(`{tag, text}`) is modelled by its text since only the list length is read. -/
structure Content where
  keywords : Option (List String) := none
  headers : Option (List String) := none
deriving DecidableEq, Repr

/-- The `siteSignals` field read by the sanitize layer. -/
structure SiteSignals where
  hasSitemap : Bool := false
deriving DecidableEq, Repr

/-- The `security` header flags read by the sanitize layer. -/
structure Security where
  hasCSP : Bool := false
  hasHSTS : Bool := false
  hasXFrame : Bool := false
deriving DecidableEq, Repr

/-- The `ResourceSummary` record (lines 915-922). -/
structure Resources where
  domNodes : JVal := JVal.null
  resourcesCount : JVal := JVal.null
  totalImageKB : JVal := JVal.null
  totalJsKB : JVal := JVal.null
  thirdPartyRequests : JVal := JVal.null
  thirdPartyScripts : JVal := JVal.null
deriving DecidableEq, Repr

/-- `trafficEstimate.indicators` (lines 500-508). -/
structure TrafficIndicators where
  pagesIndexed : JVal := JVal.null
  blogPostsEstimate : JVal := JVal.null
  multiLanguage : Bool := false
  resourceFootprint : JVal := JVal.null
deriving DecidableEq, Repr

/-- The traffic-estimate record produced by `estimateTrafficClass` and
repaired by the sanitize layer. -/
structure TrafficEstimate where
  estimatedTrafficClass : Option String := none
  indicators : Option TrafficIndicators := none
deriving DecidableEq, Repr

/-- The pricing-strategy fields read by the sanitize layer. -/
structure Pricing where
  hasTransparentPricing : Bool := false
  isSubscription : Bool := false
deriving DecidableEq, Repr

/-- The business-model record field read and written by the sanitize layer. -/
structure BusinessModel where
  inferredModel : Option String := none
deriving DecidableEq, Repr

/-- The `businessInsights` fields read by the sanitize layer. -/
structure BusinessInsights where
  businessModel : Option BusinessModel := none
  pricing : Option Pricing := none
deriving DecidableEq, Repr

/-- The `conversionSignals` field read by the sanitize layer. -/
structure ConversionSignals where
  hasCheckout : Bool := false
deriving DecidableEq, Repr

/-- The hosting flags; the sanitize layer reads `vercel`. -/
structure Hosting where
  vercel : Bool := false
  cloudflare : Bool := false
deriving DecidableEq, Repr

/-- The metadata field read by the `watchFields` loop. -/
structure Metadata where
  title : Option String := none
deriving DecidableEq, Repr

/-- The Open-Graph field read by the `watchFields` loop. -/
structure OpenGraph where
  ogTitle : Option String := none
deriving DecidableEq, Repr

/-- The `_imputed` map, one optional descriptor per field the sanitize layer
may impute. -/
structure Imputed where
  seoScore : Option ImputationRecord := none
  accessibilityScore : Option ImputationRecord := none
  securityScore : Option ImputationRecord := none
  performanceEstimate : Option ImputationRecord := none
  totalImageKB : Option ImputationRecord := none
  totalJsKB : Option ImputationRecord := none
  trafficEstimate : Option ImputationRecord := none
  businessModel : Option ImputationRecord := none
deriving DecidableEq, Repr

/-- The analysis-result document, restricted to the fields that
`sanitizeAndImpute` reads or writes (top-level fields it never touches are
omitted; they are trivially preserved).  `imputed` models `_imputed`; a
missing `_imputed`/`imputationLog` is the empty map/list, matching the
`|| {}` / `|| []` initialisers at lines 624-625. -/
structure Doc where
  canonical : Option String := none
  summarySignals : Option SummarySignals := none
  performance : Option Performance := none
  htmlMetrics : Option HtmlMetrics := none
  content : Option Content := none
  siteSignals : Option SiteSignals := none
  security : Option Security := none
  resources : Option Resources := none
  trafficEstimate : Option TrafficEstimate := none
  businessInsights : Option BusinessInsights := none
  conversionSignals : Option ConversionSignals := none
  hosting : Option Hosting := none
  metadata : Option Metadata := none
  openGraph : Option OpenGraph := none
  imputed : Imputed := {}
  imputationLog : List String := []
deriving DecidableEq, Repr

/-- State threaded through the sanitize blocks: the document plus the local
`log` array declared at line 622 (concatenated onto `imputationLog` by block
8). -/
structure SanState where
  doc : Doc
  log : List String
deriving DecidableEq, Repr

/-- Shorthand for the `{estimated: true, method: m}` descriptor shape. -/
def impMethod (m : String) : ImputationRecord :=
  { estimated := true, method := some m }

/-- Shorthand for the `{estimated: false, reason: r}` descriptor shape. -/
def impReason (r : String) : ImputationRecord :=
  { estimated := false, reason := some r }

/-- Checklist item `s.htmlMetrics && s.htmlMetrics.title` (line 632). -/
def seoHasTitle (d : Doc) : Bool :=
  match d.htmlMetrics with
  | some m => strTruthy m.title
  | none => false

/-- Checklist item `s.htmlMetrics && s.htmlMetrics.description` (line 633). -/
def seoHasDescription (d : Doc) : Bool :=
  match d.htmlMetrics with
  | some m => strTruthy m.description
  | none => false

/-- Checklist item `Array.isArray(s.content.keywords) && s.content.keywords.length`
(line 634). -/
def seoHasKeywords (d : Doc) : Bool :=
  match d.content with
  | some c => match c.keywords with
    | some ks => !ks.isEmpty
    | none => false
  | none => false

/-- Checklist item `s.siteSignals && s.siteSignals.hasSitemap` (line 635). -/
def seoHasSitemap (d : Doc) : Bool :=
  match d.siteSignals with
  | some s => s.hasSitemap
  | none => false

/-- Checklist item `s.htmlMetrics && s.htmlMetrics.h1_present` (line 636). -/
def seoHasH1 (d : Doc) : Bool :=
  match d.htmlMetrics with
  | some m => m.h1_present
  | none => false

/-- The five-item seoScore checklist of block 1 (lines 631-636):
title, description, non-empty keyword list, sitemap, H1 - 20 points each,
summed in source order. -/
def seoChecklist (d : Doc) : ℚ :=
  qofNat ((if seoHasTitle d then 20 else 0)
  + (if seoHasDescription d then 20 else 0)
  + (if seoHasKeywords d then 20 else 0)
  + (if seoHasSitemap d then 20 else 0)
  + (if seoHasH1 d then 20 else 0))

/-- Block 1a (lines 629-643): recompute `seoScore` from the checklist when it
is missing, NaN or out of [0,100]; otherwise clamp it. -/
def sanSeo (st : SanState) : SanState :=
  match st.doc.summarySignals with
  | none => st
  | some ss =>
    let d := st.doc
    if !ss.seoScore.isNumber || jlt ss.seoScore 0 || jgt ss.seoScore 100 then
      let newVal := jclamp (JVal.num (seoChecklist d))
      { doc := { d with
          summarySignals := some { ss with seoScore := newVal },
          imputed := { d.imputed with seoScore := some (impMethod "heuristic: title/meta/h1/keywords/sitemap") } },
        log := st.log ++ ["seoScore missing/invalid -> estimated " ++ jvalStr newVal
          ++ " using title/meta/h1/keywords/sitemap heuristic."] }
    else
      { doc := { d with summarySignals := some { ss with seoScore := jclamp ss.seoScore } },
        log := st.log }

/-- The value of `result.performance && result.performance.accessibilityScore`
(line 645). -/
def lhAccOf (d : Doc) : JVal :=
  match d.performance with
  | some p => p.accessibilityScore
  | none => JVal.null

/-- Block 1b (lines 645-670): reconcile `accessibilityScore` with the
lighthouse score. -/
def sanAcc (st : SanState) : SanState :=
  match st.doc.summarySignals with
  | none => st
  | some ss =>
    let d := st.doc
    let lhAcc := lhAccOf d
    let acc := ss.accessibilityScore
    if lhAcc.isNumber then
      if !acc.isNumber then
        { doc := { d with
            summarySignals := some { ss with accessibilityScore := jclamp lhAcc },
            imputed := { d.imputed with accessibilityScore := some (impMethod "from lighthouse accessibilityScore") } },
          log := st.log ++ ["accessibilityScore missing -> used lighthouse.accessibilityScore = "
            ++ jvalStr lhAcc ++ "."] }
      else
        let a := jvalOrZero acc
        let l := jvalOrZero lhAcc
        let diff := qabs (qsub a l)
        if diff > 20 then
          let blended : ℤ := jround (qdivn (qadd a l) 2)
          let m := "blend heuristic avg(" ++ qstr a ++ ", " ++ qstr l ++ ") due to diff " ++ qstr diff
          { doc := { d with
              summarySignals := some { ss with accessibilityScore := jclamp (JVal.num blended) },
              imputed := { d.imputed with accessibilityScore := some (impMethod m) } },
            log := st.log ++ ["accessibilityScore and lighthouse differ by " ++ qstr diff
              ++ " -> blended to " ++ toString blended ++ "."] }
        else
          let newVal := jclamp (JVal.num (qdivn (qadd a l) 2))
          { doc := { d with summarySignals := some { ss with accessibilityScore := newVal } },
            log := st.log ++ ["accessibilityScore blended with lighthouse to "
              ++ jvalStr newVal ++ "."] }
    else
      let newVal := jclamp (if acc = JVal.null then JVal.num 50 else acc)
      let d2 := { d with summarySignals := some { ss with accessibilityScore := newVal } }
      if !acc.isNumber then
        { doc := { d2 with imputed := { d2.imputed with accessibilityScore := some (impMethod "fallback default 50") } },
          log := st.log ++ ["accessibilityScore missing -> defaulted to 50."] }
      else
        { doc := d2, log := st.log }

/-- The header-flag score `(hasCSP ? 33 : 0) + (hasHSTS ? 33 : 0) + (hasXFrame ? 34 : 0)`
of lines 673-675, with the `result.security ? ... : 0` guard. -/
def securityHeaderScore : Option Security → ℚ
  | some s => qofNat ((if s.hasCSP then 33 else 0) + (if s.hasHSTS then 33 else 0)
      + (if s.hasXFrame then 34 else 0))
  | none => 0

/-- Block 1c (lines 672-679): derive `securityScore` from the header flags
when no numeric score is present. -/
def sanSec (st : SanState) : SanState :=
  match st.doc.summarySignals with
  | none => st
  | some ss =>
    let d := st.doc
    let sec := ss.securityScore
    let derived : ℚ := securityHeaderScore d.security
    let newVal := jclamp (if sec.isNumber then sec else JVal.num derived)
    let d2 := { d with summarySignals := some { ss with securityScore := newVal } }
    if !sec.isNumber then
      { doc := { d2 with imputed := { d2.imputed with securityScore := some (impMethod "derived from security headers flags") } },
        log := st.log ++ ["securityScore missing -> derived from security header flags."] }
    else
      { doc := d2, log := st.log }

/-- Block 2 (lines 683-714): resolve `performanceEstimate` from the
lighthouse score, else from resource totals with fixed deductions, else
leave it null. -/
def sanPerf (st : SanState) : SanState :=
  match st.doc.summarySignals with
  | none => st
  | some ss =>
    let d := st.doc
    let perf := ss.performanceEstimate
    if perf.isNumber then
      { doc := { d with summarySignals := some { ss with performanceEstimate := jclamp perf } },
        log := st.log }
    else
      let lhPerf : JVal :=
        match d.performance with
        | some p => p.performanceScore
        | none => JVal.null
      if lhPerf.isNumber then
        { doc := { d with
            summarySignals := some { ss with performanceEstimate := jclamp lhPerf },
            imputed := { d.imputed with performanceEstimate := some (impMethod "lighthouse performanceScore") } },
          log := st.log ++ ["performanceEstimate missing -> used lighthouse.performanceScore = "
            ++ jvalStr lhPerf ++ "."] }
      else
        let r := d.resources.getD {}
        let jsKB := jvalOrZero r.totalJsKB
        let imgKB := jvalOrZero r.totalImageKB
        let dom := jvalOrZero r.domNodes
        if jsKB ≠ 0 ∨ imgKB ≠ 0 ∨ dom ≠ 0 then
          let est1 : ℚ := qsub 100 (qmin 60 (qofInt (jround (qdivn jsKB 10))))
          let est2 : ℚ := qsub est1 (qmin 30 (qofInt (jround (qdivn imgKB 100))))
          let est3 : ℚ := qsub est2 (qmin 20 (qofInt (jround (qdivn dom 200))))
          let est : ℚ := qmax 0 (qmin 100 est3)
          { doc := { d with
              summarySignals := some { ss with performanceEstimate := JVal.num est },
              imputed := { d.imputed with performanceEstimate := some (impMethod "heuristic from totalJsKB/totalImageKB/domNodes") } },
            log := st.log ++ ["performanceEstimate missing -> heuristically estimated "
              ++ qstr est ++ " from jsKB=" ++ qstr jsKB ++ ", imgKB=" ++ qstr imgKB
              ++ ", dom=" ++ qstr dom ++ "."] }
        else
          { doc := { d with
              summarySignals := some { ss with performanceEstimate := JVal.null },
              imputed := { d.imputed with performanceEstimate := some (impReason "no lighthouse and no resource metrics") } },
            log := st.log ++ ["performanceEstimate could not be estimated (no lighthouse and no resource metrics)."] }

/-- `isNumber(result.htmlMetrics && result.htmlMetrics.images)` (line 718). -/
def imagesIsNumOf : Option HtmlMetrics → Bool
  | some m => m.images.isNumber
  | none => false

/-- The numeric value of `result.htmlMetrics.images` (line 719), 0 when not
a number (only read under the `imagesIsNumOf` guard). -/
def imagesValOf : Option HtmlMetrics → ℚ
  | some m => jvalOrZero m.images
  | none => 0

/-- Block 3 (lines 717-731): back-fill `totalImageKB` from the image count
and `totalJsKB` from the resource count when the direct totals are null. -/
def sanResources (st : SanState) : SanState :=
  match st.doc.resources with
  | none => st
  | some r =>
    let d := st.doc
    let imagesIsNum : Bool := imagesIsNumOf d.htmlMetrics
    let images : ℚ := imagesValOf d.htmlMetrics
    let estImgKB : ℤ := jround (qmul images 120)
    let go1 :=
      if r.totalImageKB = JVal.null ∧ imagesIsNum = true then
        ({ r with totalImageKB := JVal.num (estImgKB : ℚ) },
         { d.imputed with totalImageKB := some (impMethod ("images_count * 120KB (images=" ++ qstr images ++ ")")) },
         st.log ++ ["totalImageKB missing -> estimated " ++ toString estImgKB
           ++ " KB from " ++ qstr images ++ " img(s) * 120KB."])
      else (r, d.imputed, st.log)
    let r1 := go1.1
    let imp1 := go1.2.1
    let log1 := go1.2.2
    let estJsKB : ℤ := jround (qmul (jvalOrZero r1.resourcesCount) 15)
    let go2 :=
      if r1.totalJsKB = JVal.null ∧ r1.resourcesCount.isNumber = true then
        ({ r1 with totalJsKB := JVal.num (estJsKB : ℚ) },
         { imp1 with totalJsKB := some (impMethod ("resources_count * 15KB (resources=" ++ jvalStr r1.resourcesCount ++ ")")) },
         log1 ++ ["totalJsKB missing -> estimated " ++ toString estJsKB
           ++ " KB from resourcesCount * 15KB."])
      else (r1, imp1, log1)
    { doc := { d with resources := some go2.1, imputed := go2.2.1 }, log := go2.2.2 }

/-- `t.indicators && t.indicators.pagesIndexed` (line 736). -/
def trafficPages (t : TrafficEstimate) : JVal :=
  match t.indicators with
  | some i => i.pagesIndexed
  | none => JVal.null

/-- `t.indicators && t.indicators.blogPostsEstimate` (line 737). -/
def trafficBlog (t : TrafficEstimate) : JVal :=
  match t.indicators with
  | some i => i.blogPostsEstimate
  | none => JVal.null

/-- `result.content && result.content.headers && result.content.headers.length > 200`
(line 739). -/
def manyContentHeaders (content : Option Content) : Bool :=
  match content with
  | some c => match c.headers with
    | some hs => decide (hs.length > 200)
    | none => false
  | none => false

/-- The three-tier guess of block 4 (lines 738-745); `none` means no guess. -/
def trafficGuess (content : Option Content) (t : TrafficEstimate) : Option String :=
  if jge (trafficPages t) 1000 || manyContentHeaders content then some "High (500k+/mo)"
  else if jge (trafficPages t) 200 || jge (trafficBlog t) 20 then some "Mid (50k–300k/mo)"
  else if jgt (trafficPages t) 0 || jgt (trafficBlog t) 0 then some "Small (<50k/mo)"
  else none

/-- Block 4 (lines 734-757): re-derive the traffic class when it is missing,
empty or 'Unknown'; on failure record the imputation gap. -/
def sanTraffic (st : SanState) : SanState :=
  match st.doc.trafficEstimate with
  | none => st
  | some t =>
    let d := st.doc
    let classFalsyOrUnknown : Bool :=
      match t.estimatedTrafficClass with
      | none => true
      | some s => s.isEmpty || decide (s = "Unknown")
    if classFalsyOrUnknown then
      match trafficGuess d.content t with
      | some g =>
        { doc := { d with
            trafficEstimate := some { t with estimatedTrafficClass := some g },
            imputed := { d.imputed with trafficEstimate := some (impMethod "heuristic from sitemap pages and blog links") } },
          log := st.log ++ ["trafficEstimate missing/unknown -> guessed \x27" ++ g
            ++ "\x27 from pages=" ++ jvalStr (trafficPages t) ++ " blog="
            ++ jvalStr (trafficBlog t) ++ "."] }
      | none =>
        { doc := { d with
            trafficEstimate := some { t with estimatedTrafficClass := some "Unknown" },
            imputed := { d.imputed with trafficEstimate := some (impReason "insufficient signals (no sitemap/pages/blog links)") } },
          log := st.log ++ ["trafficEstimate could not be guessed (insufficient signals)."] }
    else st

/-- Block 5 (lines 760-779): second-chance business-model guess from
checkout/pricing/hosting signals when the inferred model is missing, empty
or 'unknown'. -/
def sanBusiness (st : SanState) : SanState :=
  match st.doc.businessInsights with
  | none => st
  | some bi =>
    let d := st.doc
    let modelMissing : Bool :=
      match bi.businessModel with
      | none => true
      | some bm =>
        match bm.inferredModel with
        | none => true
        | some m => m.isEmpty || decide (m = "unknown")
    if modelMissing then
      let fromTech : Option String :=
        match d.hosting with
        | some hst => if hst.vercel then some "saas" else none
        | none => none
      let hasCheckout : Bool :=
        match d.conversionSignals with
        | some cs => cs.hasCheckout
        | none => false
      let pricingEcom : Bool :=
        match bi.pricing with
        | some p => !p.isSubscription && p.hasTransparentPricing
        | none => false
      let pricingSub : Bool :=
        match bi.pricing with
        | some p => p.isSubscription
        | none => false
      let guess : Option String :=
        if hasCheckout || pricingEcom then some "ecommerce"
        else if pricingSub then some "saas"
        else fromTech
      match guess with
      | some g =>
        let bm0 := bi.businessModel.getD {}
        { doc := { d with
            businessInsights := some { bi with businessModel := some { bm0 with inferredModel := some g } },
            imputed := { d.imputed with businessModel := some (impMethod ("heuristic based on conversionSignals/tech -> " ++ g)) } },
          log := st.log ++ ["businessModel.inferredModel missing/unknown -> guessed \x27"
            ++ g ++ "\x27."] }
      | none =>
        { doc := { d with imputed := { d.imputed with businessModel := some (impReason "no decisive conversion/tech signal") } },
          log := st.log ++ ["businessModel.inferredModel could not be determined."] }
    else st

/-- The `watchFields` entries of block 6 (lines 782-792), pushed directly
onto `imputationLog` in source order. -/
def watchEntries (d : Doc) : List String :=
  (if strFalsy d.canonical then ["Missing: canonical not found on page."] else [])
  ++ (if strFalsy (match d.metadata with | some m => m.title | none => none) then
        ["Missing: metadata.title not found on page."] else [])
  ++ (if strFalsy (match d.openGraph with | some o => o.ogTitle | none => none) then
        ["Missing: openGraph.ogTitle not found on page."] else [])
  ++ (if strFalsy (match d.htmlMetrics with | some m => m.title | none => none) then
        ["Missing: htmlMetrics.title not found on page."] else [])

/-- Block 6: append the missing-field entries to `imputationLog`. -/
def sanWatch (st : SanState) : SanState :=
  { doc := { st.doc with imputationLog := st.doc.imputationLog ++ watchEntries st.doc },
    log := st.log }

/-- `if (x != null) x = Number(x)` on a numeric field (block 7): `Number` is
the identity on numbers and NaN, and null/undefined are skipped by the
guard. -/
def coerceJ (v : JVal) : JVal :=
  if v = JVal.null then v
  else match v with
    | JVal.num q => JVal.num q
    | JVal.nan => JVal.nan
    | JVal.null => JVal.null

/-- Block 7 (lines 795-813): defensive numeric coercion of the declared
numeric fields (in this value model the coercion cannot throw, so the catch
branch never logs). -/
def sanCoerce (st : SanState) : SanState :=
  let d := st.doc
  let d :=
    match d.resources with
    | some r => { d with resources := some { r with
        domNodes := coerceJ r.domNodes,
        resourcesCount := coerceJ r.resourcesCount,
        totalImageKB := coerceJ r.totalImageKB,
        totalJsKB := coerceJ r.totalJsKB,
        thirdPartyRequests := coerceJ r.thirdPartyRequests,
        thirdPartyScripts := coerceJ r.thirdPartyScripts } }
    | none => d
  let d :=
    match d.summarySignals with
    | some ss => { d with summarySignals := some { ss with
        seoScore := coerceJ ss.seoScore,
        accessibilityScore := coerceJ ss.accessibilityScore,
        securityScore := coerceJ ss.securityScore,
        performanceEstimate := coerceJ ss.performanceEstimate } }
    | none => d
  let d :=
    match d.performance with
    | some p => { d with performance := some { p with
        performanceScore := coerceJ p.performanceScore,
        accessibilityScore := coerceJ p.accessibilityScore,
        seoScore := coerceJ p.seoScore,
        lcp := coerceJ p.lcp,
        cls := coerceJ p.cls,
        tbt := coerceJ p.tbt } }
    | none => d
  { doc := d, log := st.log }

/-- Block 8 (line 816): append the local log to `imputationLog` and return
the document. -/
def sanFinal (st : SanState) : Doc :=
  { st.doc with imputationLog := st.doc.imputationLog ++ st.log }

/-- `sanitizeAndImpute` (analyze.mjs lines 619-819): the eight numbered
blocks in source order over the document and the local log. -/
def sanitizeAndImpute (result : Doc) : Doc :=
  sanFinal (sanCoerce (sanWatch (sanBusiness (sanTraffic (sanResources
    (sanPerf (sanSec (sanAcc (sanSeo { doc := result, log := [] })))))))))

/-- The `sitemapInfo` record produced by `fetchSitemapInfo` (lines 136-154);
only the `pages` field is read by `estimateTrafficClass`. -/
structure SitemapInfo where
  sitemapUrl : Option String := none
  pages : JVal := JVal.null
deriving DecidableEq, Repr

/-- `estimateTrafficClass` (analyze.mjs lines 488-509).  The blog-link count
(`$('a[href*="/blog"], ...').length`) and the multi-language flag are
DOM-derived and enter as parameters.  The JS initialises `classLabel` to
'Unknown', but every branch of the banding overwrites it ('Small (<50k/mo)'
in the final else), so the initial value is dead. -/
def estimateTrafficClass (sitemapInfo : SitemapInfo) (resourceSummary : Option Resources)
    (blogLinks : ℕ) (multiLanguage : Bool) : TrafficEstimate :=
  let pages : ℚ := jvalOrZero sitemapInfo.pages
  let highFootprint : Bool :=
    match resourceSummary with
    | some r => jgt r.resourcesCount 1000
    | none => false
  let classLabel : String :=
    if decide (pages > 1000) || decide (blogLinks > 100) || highFootprint then "High (500k+/mo)"
    else if decide (pages > 200) || decide (blogLinks > 20) then "Mid (50k–300k/mo)"
    else "Small (<50k/mo)"
  { estimatedTrafficClass := some classLabel,
    indicators := some
      { pagesIndexed := JVal.num pages,
        blogPostsEstimate := JVal.num (qofNat blogLinks),
        multiLanguage := multiLanguage,
        resourceFootprint :=
          match resourceSummary with
          | some r => r.resourcesCount
          | none => JVal.null } }

/-- The boolean signals feeding the `scores` object of `detectBusinessModel`
(lines 345-379).  Each field is one of the DOM/regex predicates the source
evaluates; the structure records their truth values. -/
structure ModelSignals where
  isShopify : Bool := false
  hasProductLd : Bool := false
  ctaShopText : Bool := false
  urlProduct : Bool := false
  hasSoftware : Bool := false
  ctaSaasText : Bool := false
  urlPricing : Bool := false
  urlDemo : Bool := false
  marketplaceText : Bool := false
  agencyText : Bool := false
  mediaText : Bool := false
  appText : Bool := false
  enterpriseText : Bool := false
  consultingText : Bool := false
deriving DecidableEq, Repr

/-- The per-category scores of `detectBusinessModel` (lines 370-379); the
source stores 1/0, whose truthiness these booleans model. -/
structure ModelScores where
  ecommerce : Bool
  saas : Bool
  marketplace : Bool
  agency : Bool
  media : Bool
  app_product : Bool
  enterprise : Bool
  consulting : Bool
deriving DecidableEq, Repr

/-- The `scores` object (lines 370-379), each category a disjunction of its
signals in source order. -/
def mkModelScores (sig : ModelSignals) : ModelScores :=
  { ecommerce := sig.isShopify || sig.hasProductLd || sig.ctaShopText || sig.urlProduct,
    saas := sig.hasSoftware || sig.ctaSaasText || sig.urlPricing || sig.urlDemo,
    marketplace := sig.marketplaceText,
    agency := sig.agencyText,
    media := sig.mediaText,
    app_product := sig.appText,
    enterprise := sig.enterpriseText,
    consulting := sig.consultingText }

/-- `scores[k]` lookup for the ordering search. -/
def scoresLookup (sc : ModelScores) : String → Bool
  | "ecommerce" => sc.ecommerce
  | "saas" => sc.saas
  | "marketplace" => sc.marketplace
  | "agency" => sc.agency
  | "media" => sc.media
  | "app_product" => sc.app_product
  | "enterprise" => sc.enterprise
  | "consulting" => sc.consulting
  | _ => false

/-- The fixed priority order of line 382. -/
def modelOrdering : List String :=
  ["ecommerce", "saas", "marketplace", "enterprise", "agency", "media", "app_product", "consulting"]

/-- The model selection of `detectBusinessModel` (lines 382-383):
`ordering.find(k => scores[k]) || 'unknown'`. -/
def detectBusinessModelKind (sig : ModelSignals) : String :=
  (modelOrdering.find? (fun k => scoresLookup (mkModelScores sig) k)).getD "unknown"

/-- The `tech` fingerprint record of `detectTech` (lines 170-200), restricted
to the flags `estimateMargin` reads.  `cloudflare` is read at line 439 via
`tech.cloudflare` but `detectTech` never produces such a key, so on the
pipeline path it is `undefined` (falsy); it is kept as a field, defaulting
to false, so the function can be studied on its whole input space. -/
structure Tech where
  shopify : Bool := false
  wordpress : Bool := false
  nextjs : Bool := false
  react : Bool := false
  cloudflare : Bool := false
deriving DecidableEq, Repr

/-- The record returned by `estimateMargin` (lines 445-448). -/
structure MarginEstimate where
  low : ℚ
  high : ℚ
  estimate : String
  notes : String
deriving DecidableEq, Repr

/-- The base band table of `estimateMargin` (lines 424-432); the closing
`|| {low:20,high:60}` fallback coincides with the 'unknown' entry. -/
def marginBase (model : String) : ℚ × ℚ :=
  if model = "saas" then (70, 90)
  else if model = "ecommerce" then (20, 60)
  else if model = "marketplace" then (10, 40)
  else if model = "agency" then (30, 60)
  else if model = "media" then (10, 40)
  else if model = "consulting" then (30, 60)
  else (20, 60)

/-- The signed adjustment sum of `estimateMargin` (lines 435-439).  Note the
JS precedence at line 437: `tech && tech.nextjs || tech.react` is
`(tech && tech.nextjs) || tech.react`, and `tech` is always an object on the
call path, so the condition is `nextjs || react`. -/
def marginAdj (tech : Tech) (resourceSummary : Option Resources) : ℚ :=
  qadd (qadd (qadd
    (if tech.shopify || tech.wordpress then -10 else 0)
    (if tech.nextjs || tech.react then 5 else 0))
    (if (match resourceSummary with
         | some r => r.totalJsKB.truthy && jgt r.totalJsKB 2000
         | none => false) then -5 else 0))
    (if tech.cloudflare then 3 else 0)

/-- `estimateMargin` (analyze.mjs lines 422-449). -/
def estimateMargin (model : String) (tech : Tech) (resourceSummary : Option Resources) :
    MarginEstimate :=
  let base := marginBase model
  let adj := marginAdj tech resourceSummary
  let low : ℚ := qmax 0 (qadd base.1 adj)
  let high : ℚ := qmin 100 (qadd base.2 adj)
  let band : ℚ := qdivn (qadd low high) 2
  { low := low, high := high,
    estimate := toString (jround band) ++ "%",
    notes := "Heuristic based on model=" ++ model ++ "; adjustments applied: " ++ qstr adj }

/-- The value `safeFetch` resolves to when the underlying fetch resolves:
`{ text, headers, ok, status }` (line 31); headers are not modelled. -/
structure FetchResult where
  text : String
  ok : Bool
  status : ℕ
deriving DecidableEq, Repr

/-- Outcome of the underlying `fetch(...)`/`res.text()`: either it resolved
(with any status, 2xx or not) or it threw (network error, or the abort
controller fired on timeout). -/
inductive FetchOutcome where
  | success (text : String) (ok : Bool) (status : ℕ) : FetchOutcome
  | thrown : FetchOutcome
deriving DecidableEq, Repr

/-- `safeFetch` (analyze.mjs lines 25-37): returns the result object when the
fetch resolved - whatever its status - and null only when it threw. -/
def safeFetch : FetchOutcome → Option FetchResult
  | FetchOutcome.success t ok st => some { text := t, ok := ok, status := st }
  | FetchOutcome.thrown => none

/-- The html-selection logic of `analyzeWebsite` (lines 826-843): take
`fetchRes?.text || null`, escalate to the browser render when the text is
missing/short or resources were requested, replace the text by the rendered
html only when the text is missing/short, and fail (`none`, modelling the
thrown `Unable to retrieve HTML`) when the final html is still falsy.
`rendered = none` models `gatherResourceMetrics` throwing.  The falsy values
null and '' are conflated as the empty string, which the source treats
identically here (truthiness and a guarded `.length`). -/
def chooseHtml (fetchRes : Option FetchResult) (collectResources : Bool)
    (rendered : Option String) : Option String :=
  let html : String :=
    match fetchRes with
    | some r => r.text
    | none => ""
  let html : String :=
    if html.isEmpty || html.length < 1000 || collectResources then
      match rendered with
      | some rhtml => if html.isEmpty || html.length < 1000 then rhtml else html
      | none => html
    else html
  if html.isEmpty then none else some html

/-- A score-field value that is either null or a number in [0,100] - the
spec invariant for `summarySignals` fields. -/
def scoreOkB (v : JVal) : Bool :=
  match v with
  | JVal.null => true
  | JVal.nan => false
  | JVal.num q => decide (0 ≤ q) && decide (q ≤ 100)

/-- A score-field value that is a number in [0,100]. -/
def inRangeNum (v : JVal) : Bool :=
  match v with
  | JVal.num q => decide (0 ≤ q) && decide (q ≤ 100)
  | _ => false

/-- The stored traffic class is present, non-empty and not 'Unknown' (so
block 4 does not fire), or there is no trafficEstimate record at all. -/
def classKnown : Option TrafficEstimate → Bool
  | none => true
  | some t =>
    match t.estimatedTrafficClass with
    | none => false
    | some c => !(c.isEmpty || decide (c = "Unknown"))

/-- The inferred business model is present, non-empty and not 'unknown' (so
block 5 does not fire), or there is no businessInsights record at all. -/
def modelKnown : Option BusinessInsights → Bool
  | none => true
  | some bi =>
    match bi.businessModel with
    | none => false
    | some bm =>
      match bm.inferredModel with
      | none => false
      | some m => !(m.isEmpty || decide (m = "unknown"))

/-- All four watched metadata fields of block 6 are present and non-empty,
so no 'Missing: ...' entry is appended. -/
def watchOk (d : Doc) : Bool :=
  strTruthy d.canonical
  && strTruthy (match d.metadata with | some m => m.title | none => none)
  && strTruthy (match d.openGraph with | some o => o.ogTitle | none => none)
  && strTruthy (match d.htmlMetrics with | some m => m.title | none => none)

/-- A document on which every sanitize block is the identity: scores already
numbers in range, no lighthouse accessibility score to re-blend, no resource
back-fill left applicable, traffic class and business model known, watched
metadata present. -/
def stableDoc (e : Doc) : Bool :=
  (match e.summarySignals with
   | none => true
   | some ss => inRangeNum ss.seoScore && inRangeNum ss.accessibilityScore
       && inRangeNum ss.securityScore && inRangeNum ss.performanceEstimate)
  && !(lhAccOf e).isNumber
  && (match e.resources with
      | none => true
      | some r =>
        (!(decide (r.totalImageKB = JVal.null)) || !imagesIsNumOf e.htmlMetrics)
        && (!(decide (r.totalJsKB = JVal.null)) || !r.resourcesCount.isNumber))
  && classKnown e.trafficEstimate
  && modelKnown e.businessInsights
  && watchOk e

/-- The `summarySignals.seoScore` field of a document, as an optional value. -/
def ssSeoOf (d : Doc) : Option JVal := Option.map SummarySignals.seoScore d.summarySignals

/-- The `summarySignals.accessibilityScore` field of a document. -/
def ssAccOf (d : Doc) : Option JVal :=
  Option.map SummarySignals.accessibilityScore d.summarySignals

/-- The `summarySignals.securityScore` field of a document. -/
def ssSecOf (d : Doc) : Option JVal :=
  Option.map SummarySignals.securityScore d.summarySignals

/-- The `summarySignals.performanceEstimate` field of a document. -/
def ssPerfOf (d : Doc) : Option JVal :=
  Option.map SummarySignals.performanceEstimate d.summarySignals

/-
  Bridge lemmas for the kernel-computable arithmetic.
-/

theorem qadd_eq (a b : ℚ) : qadd a b = a + b := (Rat.add_def' a b).symm

theorem qsub_eq (a b : ℚ) : qsub a b = a - b := by
  rw [qsub, qadd_eq, sub_eq_add_neg]

theorem qmul_eq (a b : ℚ) : qmul a b = a * b := by
  rw [qmul, Rat.mul_def, Rat.normalize_eq_mkRat]

theorem qdivn_eq (a : ℚ) (n : ℕ) : qdivn a n = a / (n : ℚ) := by
  unfold qdivn
  rw [Rat.mkRat_eq_div]
  push_cast
  conv_rhs => rw [← Rat.num_div_den a]
  rw [div_div]

theorem qofInt_eq (i : ℤ) : qofInt i = (i : ℚ) := by
  unfold qofInt
  rw [Rat.mkRat_eq_div]
  simp

theorem qofNat_eq (n : ℕ) : qofNat n = (n : ℚ) := by
  unfold qofNat
  rw [Rat.mkRat_eq_div]
  simp

theorem qmin_eq (a b : ℚ) : qmin a b = min a b := by
  rw [qmin, min_def]

theorem qmax_eq (a b : ℚ) : qmax a b = max a b := by
  unfold qmax
  split_ifs with h
  · exact (max_eq_left h).symm
  · exact (max_eq_right (le_of_not_le h)).symm

theorem qabs_eq (q : ℚ) : qabs q = |q| := by
  unfold qabs
  split_ifs with h
  · exact (abs_of_neg h).symm
  · exact (abs_of_nonneg (le_of_not_lt h)).symm


/-
  Structural lemmas about the sanitize blocks: each block only writes its
  designated fields and only appends to the local log.
-/

theorem sanSeo_pres_canonical (st : SanState) :
    ((sanSeo) st).doc.canonical = st.doc.canonical := by
  rcases st with ⟨d, lg⟩
  rcases h : d.summarySignals with _ | ss <;>
    simp only [sanSeo, h] <;> (try split) <;> (try split) <;> (try split) <;> simp

theorem sanSeo_pres_performance (st : SanState) :
    ((sanSeo) st).doc.performance = st.doc.performance := by
  rcases st with ⟨d, lg⟩
  rcases h : d.summarySignals with _ | ss <;>
    simp only [sanSeo, h] <;> (try split) <;> (try split) <;> (try split) <;> simp

theorem sanSeo_pres_htmlMetrics (st : SanState) :
    ((sanSeo) st).doc.htmlMetrics = st.doc.htmlMetrics := by
  rcases st with ⟨d, lg⟩
  rcases h : d.summarySignals with _ | ss <;>
    simp only [sanSeo, h] <;> (try split) <;> (try split) <;> (try split) <;> simp

theorem sanSeo_pres_content (st : SanState) :
    ((sanSeo) st).doc.content = st.doc.content := by
  rcases st with ⟨d, lg⟩
  rcases h : d.summarySignals with _ | ss <;>
    simp only [sanSeo, h] <;> (try split) <;> (try split) <;> (try split) <;> simp

theorem sanSeo_pres_siteSignals (st : SanState) :
    ((sanSeo) st).doc.siteSignals = st.doc.siteSignals := by
  rcases st with ⟨d, lg⟩
  rcases h : d.summarySignals with _ | ss <;>
    simp only [sanSeo, h] <;> (try split) <;> (try split) <;> (try split) <;> simp

theorem sanSeo_pres_security (st : SanState) :
    ((sanSeo) st).doc.security = st.doc.security := by
  rcases st with ⟨d, lg⟩
  rcases h : d.summarySignals with _ | ss <;>
    simp only [sanSeo, h] <;> (try split) <;> (try split) <;> (try split) <;> simp

theorem sanSeo_pres_resources (st : SanState) :
    ((sanSeo) st).doc.resources = st.doc.resources := by
  rcases st with ⟨d, lg⟩
  rcases h : d.summarySignals with _ | ss <;>
    simp only [sanSeo, h] <;> (try split) <;> (try split) <;> (try split) <;> simp

theorem sanSeo_pres_trafficEstimate (st : SanState) :
    ((sanSeo) st).doc.trafficEstimate = st.doc.trafficEstimate := by
  rcases st with ⟨d, lg⟩
  rcases h : d.summarySignals with _ | ss <;>
    simp only [sanSeo, h] <;> (try split) <;> (try split) <;> (try split) <;> simp

theorem sanSeo_pres_businessInsights (st : SanState) :
    ((sanSeo) st).doc.businessInsights = st.doc.businessInsights := by
  rcases st with ⟨d, lg⟩
  rcases h : d.summarySignals with _ | ss <;>
    simp only [sanSeo, h] <;> (try split) <;> (try split) <;> (try split) <;> simp

theorem sanSeo_pres_conversionSignals (st : SanState) :
    ((sanSeo) st).doc.conversionSignals = st.doc.conversionSignals := by
  rcases st with ⟨d, lg⟩
  rcases h : d.summarySignals with _ | ss <;>
    simp only [sanSeo, h] <;> (try split) <;> (try split) <;> (try split) <;> simp

theorem sanSeo_pres_hosting (st : SanState) :
    ((sanSeo) st).doc.hosting = st.doc.hosting := by
  rcases st with ⟨d, lg⟩
  rcases h : d.summarySignals with _ | ss <;>
    simp only [sanSeo, h] <;> (try split) <;> (try split) <;> (try split) <;> simp

theorem sanSeo_pres_metadata (st : SanState) :
    ((sanSeo) st).doc.metadata = st.doc.metadata := by
  rcases st with ⟨d, lg⟩
  rcases h : d.summarySignals with _ | ss <;>
    simp only [sanSeo, h] <;> (try split) <;> (try split) <;> (try split) <;> simp

theorem sanSeo_pres_openGraph (st : SanState) :
    ((sanSeo) st).doc.openGraph = st.doc.openGraph := by
  rcases st with ⟨d, lg⟩
  rcases h : d.summarySignals with _ | ss <;>
    simp only [sanSeo, h] <;> (try split) <;> (try split) <;> (try split) <;> simp

theorem sanSeo_pres_imputationLog (st : SanState) :
    ((sanSeo) st).doc.imputationLog = st.doc.imputationLog := by
  rcases st with ⟨d, lg⟩
  rcases h : d.summarySignals with _ | ss <;>
    simp only [sanSeo, h] <;> (try split) <;> (try split) <;> (try split) <;> simp

theorem sanAcc_pres_canonical (st : SanState) :
    ((sanAcc) st).doc.canonical = st.doc.canonical := by
  rcases st with ⟨d, lg⟩
  rcases h : d.summarySignals with _ | ss <;>
    simp only [sanAcc, h] <;> (try split) <;> (try split) <;> (try split) <;> simp

theorem sanAcc_pres_performance (st : SanState) :
    ((sanAcc) st).doc.performance = st.doc.performance := by
  rcases st with ⟨d, lg⟩
  rcases h : d.summarySignals with _ | ss <;>
    simp only [sanAcc, h] <;> (try split) <;> (try split) <;> (try split) <;> simp

theorem sanAcc_pres_htmlMetrics (st : SanState) :
    ((sanAcc) st).doc.htmlMetrics = st.doc.htmlMetrics := by
  rcases st with ⟨d, lg⟩
  rcases h : d.summarySignals with _ | ss <;>
    simp only [sanAcc, h] <;> (try split) <;> (try split) <;> (try split) <;> simp

theorem sanAcc_pres_content (st : SanState) :
    ((sanAcc) st).doc.content = st.doc.content := by
  rcases st with ⟨d, lg⟩
  rcases h : d.summarySignals with _ | ss <;>
    simp only [sanAcc, h] <;> (try split) <;> (try split) <;> (try split) <;> simp

theorem sanAcc_pres_siteSignals (st : SanState) :
    ((sanAcc) st).doc.siteSignals = st.doc.siteSignals := by
  rcases st with ⟨d, lg⟩
  rcases h : d.summarySignals with _ | ss <;>
    simp only [sanAcc, h] <;> (try split) <;> (try split) <;> (try split) <;> simp

theorem sanAcc_pres_security (st : SanState) :
    ((sanAcc) st).doc.security = st.doc.security := by
  rcases st with ⟨d, lg⟩
  rcases h : d.summarySignals with _ | ss <;>
    simp only [sanAcc, h] <;> (try split) <;> (try split) <;> (try split) <;> simp

theorem sanAcc_pres_resources (st : SanState) :
    ((sanAcc) st).doc.resources = st.doc.resources := by
  rcases st with ⟨d, lg⟩
  rcases h : d.summarySignals with _ | ss <;>
    simp only [sanAcc, h] <;> (try split) <;> (try split) <;> (try split) <;> simp

theorem sanAcc_pres_trafficEstimate (st : SanState) :
    ((sanAcc) st).doc.trafficEstimate = st.doc.trafficEstimate := by
  rcases st with ⟨d, lg⟩
  rcases h : d.summarySignals with _ | ss <;>
    simp only [sanAcc, h] <;> (try split) <;> (try split) <;> (try split) <;> simp

theorem sanAcc_pres_businessInsights (st : SanState) :
    ((sanAcc) st).doc.businessInsights = st.doc.businessInsights := by
  rcases st with ⟨d, lg⟩
  rcases h : d.summarySignals with _ | ss <;>
    simp only [sanAcc, h] <;> (try split) <;> (try split) <;> (try split) <;> simp

theorem sanAcc_pres_conversionSignals (st : SanState) :
    ((sanAcc) st).doc.conversionSignals = st.doc.conversionSignals := by
  rcases st with ⟨d, lg⟩
  rcases h : d.summarySignals with _ | ss <;>
    simp only [sanAcc, h] <;> (try split) <;> (try split) <;> (try split) <;> simp

theorem sanAcc_pres_hosting (st : SanState) :
    ((sanAcc) st).doc.hosting = st.doc.hosting := by
  rcases st with ⟨d, lg⟩
  rcases h : d.summarySignals with _ | ss <;>
    simp only [sanAcc, h] <;> (try split) <;> (try split) <;> (try split) <;> simp

theorem sanAcc_pres_metadata (st : SanState) :
    ((sanAcc) st).doc.metadata = st.doc.metadata := by
  rcases st with ⟨d, lg⟩
  rcases h : d.summarySignals with _ | ss <;>
    simp only [sanAcc, h] <;> (try split) <;> (try split) <;> (try split) <;> simp

theorem sanAcc_pres_openGraph (st : SanState) :
    ((sanAcc) st).doc.openGraph = st.doc.openGraph := by
  rcases st with ⟨d, lg⟩
  rcases h : d.summarySignals with _ | ss <;>
    simp only [sanAcc, h] <;> (try split) <;> (try split) <;> (try split) <;> simp

theorem sanAcc_pres_imputationLog (st : SanState) :
    ((sanAcc) st).doc.imputationLog = st.doc.imputationLog := by
  rcases st with ⟨d, lg⟩
  rcases h : d.summarySignals with _ | ss <;>
    simp only [sanAcc, h] <;> (try split) <;> (try split) <;> (try split) <;> simp

theorem sanSec_pres_canonical (st : SanState) :
    ((sanSec) st).doc.canonical = st.doc.canonical := by
  rcases st with ⟨d, lg⟩
  rcases h : d.summarySignals with _ | ss <;>
    simp only [sanSec, h] <;> (try split) <;> (try split) <;> (try split) <;> simp

theorem sanSec_pres_performance (st : SanState) :
    ((sanSec) st).doc.performance = st.doc.performance := by
  rcases st with ⟨d, lg⟩
  rcases h : d.summarySignals with _ | ss <;>
    simp only [sanSec, h] <;> (try split) <;> (try split) <;> (try split) <;> simp

theorem sanSec_pres_htmlMetrics (st : SanState) :
    ((sanSec) st).doc.htmlMetrics = st.doc.htmlMetrics := by
  rcases st with ⟨d, lg⟩
  rcases h : d.summarySignals with _ | ss <;>
    simp only [sanSec, h] <;> (try split) <;> (try split) <;> (try split) <;> simp

theorem sanSec_pres_content (st : SanState) :
    ((sanSec) st).doc.content = st.doc.content := by
  rcases st with ⟨d, lg⟩
  rcases h : d.summarySignals with _ | ss <;>
    simp only [sanSec, h] <;> (try split) <;> (try split) <;> (try split) <;> simp

theorem sanSec_pres_siteSignals (st : SanState) :
    ((sanSec) st).doc.siteSignals = st.doc.siteSignals := by
  rcases st with ⟨d, lg⟩
  rcases h : d.summarySignals with _ | ss <;>
    simp only [sanSec, h] <;> (try split) <;> (try split) <;> (try split) <;> simp

theorem sanSec_pres_security (st : SanState) :
    ((sanSec) st).doc.security = st.doc.security := by
  rcases st with ⟨d, lg⟩
  rcases h : d.summarySignals with _ | ss <;>
    simp only [sanSec, h] <;> (try split) <;> (try split) <;> (try split) <;> simp

theorem sanSec_pres_resources (st : SanState) :
    ((sanSec) st).doc.resources = st.doc.resources := by
  rcases st with ⟨d, lg⟩
  rcases h : d.summarySignals with _ | ss <;>
    simp only [sanSec, h] <;> (try split) <;> (try split) <;> (try split) <;> simp

theorem sanSec_pres_trafficEstimate (st : SanState) :
    ((sanSec) st).doc.trafficEstimate = st.doc.trafficEstimate := by
  rcases st with ⟨d, lg⟩
  rcases h : d.summarySignals with _ | ss <;>
    simp only [sanSec, h] <;> (try split) <;> (try split) <;> (try split) <;> simp

theorem sanSec_pres_businessInsights (st : SanState) :
    ((sanSec) st).doc.businessInsights = st.doc.businessInsights := by
  rcases st with ⟨d, lg⟩
  rcases h : d.summarySignals with _ | ss <;>
    simp only [sanSec, h] <;> (try split) <;> (try split) <;> (try split) <;> simp

theorem sanSec_pres_conversionSignals (st : SanState) :
    ((sanSec) st).doc.conversionSignals = st.doc.conversionSignals := by
  rcases st with ⟨d, lg⟩
  rcases h : d.summarySignals with _ | ss <;>
    simp only [sanSec, h] <;> (try split) <;> (try split) <;> (try split) <;> simp

theorem sanSec_pres_hosting (st : SanState) :
    ((sanSec) st).doc.hosting = st.doc.hosting := by
  rcases st with ⟨d, lg⟩
  rcases h : d.summarySignals with _ | ss <;>
    simp only [sanSec, h] <;> (try split) <;> (try split) <;> (try split) <;> simp

theorem sanSec_pres_metadata (st : SanState) :
    ((sanSec) st).doc.metadata = st.doc.metadata := by
  rcases st with ⟨d, lg⟩
  rcases h : d.summarySignals with _ | ss <;>
    simp only [sanSec, h] <;> (try split) <;> (try split) <;> (try split) <;> simp

theorem sanSec_pres_openGraph (st : SanState) :
    ((sanSec) st).doc.openGraph = st.doc.openGraph := by
  rcases st with ⟨d, lg⟩
  rcases h : d.summarySignals with _ | ss <;>
    simp only [sanSec, h] <;> (try split) <;> (try split) <;> (try split) <;> simp

theorem sanSec_pres_imputationLog (st : SanState) :
    ((sanSec) st).doc.imputationLog = st.doc.imputationLog := by
  rcases st with ⟨d, lg⟩
  rcases h : d.summarySignals with _ | ss <;>
    simp only [sanSec, h] <;> (try split) <;> (try split) <;> (try split) <;> simp

theorem sanPerf_pres_canonical (st : SanState) :
    ((sanPerf) st).doc.canonical = st.doc.canonical := by
  rcases st with ⟨d, lg⟩
  rcases h : d.summarySignals with _ | ss <;>
    simp only [sanPerf, h] <;> (try split) <;> (try split) <;> (try split) <;> simp

theorem sanPerf_pres_performance (st : SanState) :
    ((sanPerf) st).doc.performance = st.doc.performance := by
  rcases st with ⟨d, lg⟩
  rcases h : d.summarySignals with _ | ss <;>
    simp only [sanPerf, h] <;> (try split) <;> (try split) <;> (try split) <;> simp

theorem sanPerf_pres_htmlMetrics (st : SanState) :
    ((sanPerf) st).doc.htmlMetrics = st.doc.htmlMetrics := by
  rcases st with ⟨d, lg⟩
  rcases h : d.summarySignals with _ | ss <;>
    simp only [sanPerf, h] <;> (try split) <;> (try split) <;> (try split) <;> simp

theorem sanPerf_pres_content (st : SanState) :
    ((sanPerf) st).doc.content = st.doc.content := by
  rcases st with ⟨d, lg⟩
  rcases h : d.summarySignals with _ | ss <;>
    simp only [sanPerf, h] <;> (try split) <;> (try split) <;> (try split) <;> simp

theorem sanPerf_pres_siteSignals (st : SanState) :
    ((sanPerf) st).doc.siteSignals = st.doc.siteSignals := by
  rcases st with ⟨d, lg⟩
  rcases h : d.summarySignals with _ | ss <;>
    simp only [sanPerf, h] <;> (try split) <;> (try split) <;> (try split) <;> simp

theorem sanPerf_pres_security (st : SanState) :
    ((sanPerf) st).doc.security = st.doc.security := by
  rcases st with ⟨d, lg⟩
  rcases h : d.summarySignals with _ | ss <;>
    simp only [sanPerf, h] <;> (try split) <;> (try split) <;> (try split) <;> simp

theorem sanPerf_pres_resources (st : SanState) :
    ((sanPerf) st).doc.resources = st.doc.resources := by
  rcases st with ⟨d, lg⟩
  rcases h : d.summarySignals with _ | ss <;>
    simp only [sanPerf, h] <;> (try split) <;> (try split) <;> (try split) <;> simp

theorem sanPerf_pres_trafficEstimate (st : SanState) :
    ((sanPerf) st).doc.trafficEstimate = st.doc.trafficEstimate := by
  rcases st with ⟨d, lg⟩
  rcases h : d.summarySignals with _ | ss <;>
    simp only [sanPerf, h] <;> (try split) <;> (try split) <;> (try split) <;> simp

theorem sanPerf_pres_businessInsights (st : SanState) :
    ((sanPerf) st).doc.businessInsights = st.doc.businessInsights := by
  rcases st with ⟨d, lg⟩
  rcases h : d.summarySignals with _ | ss <;>
    simp only [sanPerf, h] <;> (try split) <;> (try split) <;> (try split) <;> simp

theorem sanPerf_pres_conversionSignals (st : SanState) :
    ((sanPerf) st).doc.conversionSignals = st.doc.conversionSignals := by
  rcases st with ⟨d, lg⟩
  rcases h : d.summarySignals with _ | ss <;>
    simp only [sanPerf, h] <;> (try split) <;> (try split) <;> (try split) <;> simp

theorem sanPerf_pres_hosting (st : SanState) :
    ((sanPerf) st).doc.hosting = st.doc.hosting := by
  rcases st with ⟨d, lg⟩
  rcases h : d.summarySignals with _ | ss <;>
    simp only [sanPerf, h] <;> (try split) <;> (try split) <;> (try split) <;> simp

theorem sanPerf_pres_metadata (st : SanState) :
    ((sanPerf) st).doc.metadata = st.doc.metadata := by
  rcases st with ⟨d, lg⟩
  rcases h : d.summarySignals with _ | ss <;>
    simp only [sanPerf, h] <;> (try split) <;> (try split) <;> (try split) <;> simp

theorem sanPerf_pres_openGraph (st : SanState) :
    ((sanPerf) st).doc.openGraph = st.doc.openGraph := by
  rcases st with ⟨d, lg⟩
  rcases h : d.summarySignals with _ | ss <;>
    simp only [sanPerf, h] <;> (try split) <;> (try split) <;> (try split) <;> simp

theorem sanPerf_pres_imputationLog (st : SanState) :
    ((sanPerf) st).doc.imputationLog = st.doc.imputationLog := by
  rcases st with ⟨d, lg⟩
  rcases h : d.summarySignals with _ | ss <;>
    simp only [sanPerf, h] <;> (try split) <;> (try split) <;> (try split) <;> simp

theorem sanResources_pres_canonical (st : SanState) :
    ((sanResources) st).doc.canonical = st.doc.canonical := by
  rcases st with ⟨d, lg⟩
  rcases h : d.resources with _ | r <;>
    simp only [sanResources, h] <;> (try split) <;> (try split) <;> (try split) <;> simp

theorem sanResources_pres_performance (st : SanState) :
    ((sanResources) st).doc.performance = st.doc.performance := by
  rcases st with ⟨d, lg⟩
  rcases h : d.resources with _ | r <;>
    simp only [sanResources, h] <;> (try split) <;> (try split) <;> (try split) <;> simp

theorem sanResources_pres_htmlMetrics (st : SanState) :
    ((sanResources) st).doc.htmlMetrics = st.doc.htmlMetrics := by
  rcases st with ⟨d, lg⟩
  rcases h : d.resources with _ | r <;>
    simp only [sanResources, h] <;> (try split) <;> (try split) <;> (try split) <;> simp

theorem sanResources_pres_content (st : SanState) :
    ((sanResources) st).doc.content = st.doc.content := by
  rcases st with ⟨d, lg⟩
  rcases h : d.resources with _ | r <;>
    simp only [sanResources, h] <;> (try split) <;> (try split) <;> (try split) <;> simp

theorem sanResources_pres_siteSignals (st : SanState) :
    ((sanResources) st).doc.siteSignals = st.doc.siteSignals := by
  rcases st with ⟨d, lg⟩
  rcases h : d.resources with _ | r <;>
    simp only [sanResources, h] <;> (try split) <;> (try split) <;> (try split) <;> simp

theorem sanResources_pres_security (st : SanState) :
    ((sanResources) st).doc.security = st.doc.security := by
  rcases st with ⟨d, lg⟩
  rcases h : d.resources with _ | r <;>
    simp only [sanResources, h] <;> (try split) <;> (try split) <;> (try split) <;> simp

theorem sanResources_pres_trafficEstimate (st : SanState) :
    ((sanResources) st).doc.trafficEstimate = st.doc.trafficEstimate := by
  rcases st with ⟨d, lg⟩
  rcases h : d.resources with _ | r <;>
    simp only [sanResources, h] <;> (try split) <;> (try split) <;> (try split) <;> simp

theorem sanResources_pres_businessInsights (st : SanState) :
    ((sanResources) st).doc.businessInsights = st.doc.businessInsights := by
  rcases st with ⟨d, lg⟩
  rcases h : d.resources with _ | r <;>
    simp only [sanResources, h] <;> (try split) <;> (try split) <;> (try split) <;> simp

theorem sanResources_pres_conversionSignals (st : SanState) :
    ((sanResources) st).doc.conversionSignals = st.doc.conversionSignals := by
  rcases st with ⟨d, lg⟩
  rcases h : d.resources with _ | r <;>
    simp only [sanResources, h] <;> (try split) <;> (try split) <;> (try split) <;> simp

theorem sanResources_pres_hosting (st : SanState) :
    ((sanResources) st).doc.hosting = st.doc.hosting := by
  rcases st with ⟨d, lg⟩
  rcases h : d.resources with _ | r <;>
    simp only [sanResources, h] <;> (try split) <;> (try split) <;> (try split) <;> simp

theorem sanResources_pres_metadata (st : SanState) :
    ((sanResources) st).doc.metadata = st.doc.metadata := by
  rcases st with ⟨d, lg⟩
  rcases h : d.resources with _ | r <;>
    simp only [sanResources, h] <;> (try split) <;> (try split) <;> (try split) <;> simp

theorem sanResources_pres_openGraph (st : SanState) :
    ((sanResources) st).doc.openGraph = st.doc.openGraph := by
  rcases st with ⟨d, lg⟩
  rcases h : d.resources with _ | r <;>
    simp only [sanResources, h] <;> (try split) <;> (try split) <;> (try split) <;> simp

theorem sanResources_pres_imputationLog (st : SanState) :
    ((sanResources) st).doc.imputationLog = st.doc.imputationLog := by
  rcases st with ⟨d, lg⟩
  rcases h : d.resources with _ | r <;>
    simp only [sanResources, h] <;> (try split) <;> (try split) <;> (try split) <;> simp

theorem sanResources_pres_summarySignals (st : SanState) :
    ((sanResources) st).doc.summarySignals = st.doc.summarySignals := by
  rcases st with ⟨d, lg⟩
  rcases h : d.resources with _ | r <;>
    simp only [sanResources, h] <;> (try split) <;> (try split) <;> (try split) <;> simp

theorem sanTraffic_pres_canonical (st : SanState) :
    ((sanTraffic) st).doc.canonical = st.doc.canonical := by
  rcases st with ⟨d, lg⟩
  rcases h : d.trafficEstimate with _ | t <;>
    simp only [sanTraffic, h] <;> (try split) <;> (try split) <;> (try split) <;> simp

theorem sanTraffic_pres_performance (st : SanState) :
    ((sanTraffic) st).doc.performance = st.doc.performance := by
  rcases st with ⟨d, lg⟩
  rcases h : d.trafficEstimate with _ | t <;>
    simp only [sanTraffic, h] <;> (try split) <;> (try split) <;> (try split) <;> simp

theorem sanTraffic_pres_htmlMetrics (st : SanState) :
    ((sanTraffic) st).doc.htmlMetrics = st.doc.htmlMetrics := by
  rcases st with ⟨d, lg⟩
  rcases h : d.trafficEstimate with _ | t <;>
    simp only [sanTraffic, h] <;> (try split) <;> (try split) <;> (try split) <;> simp

theorem sanTraffic_pres_content (st : SanState) :
    ((sanTraffic) st).doc.content = st.doc.content := by
  rcases st with ⟨d, lg⟩
  rcases h : d.trafficEstimate with _ | t <;>
    simp only [sanTraffic, h] <;> (try split) <;> (try split) <;> (try split) <;> simp

theorem sanTraffic_pres_siteSignals (st : SanState) :
    ((sanTraffic) st).doc.siteSignals = st.doc.siteSignals := by
  rcases st with ⟨d, lg⟩
  rcases h : d.trafficEstimate with _ | t <;>
    simp only [sanTraffic, h] <;> (try split) <;> (try split) <;> (try split) <;> simp

theorem sanTraffic_pres_security (st : SanState) :
    ((sanTraffic) st).doc.security = st.doc.security := by
  rcases st with ⟨d, lg⟩
  rcases h : d.trafficEstimate with _ | t <;>
    simp only [sanTraffic, h] <;> (try split) <;> (try split) <;> (try split) <;> simp

theorem sanTraffic_pres_resources (st : SanState) :
    ((sanTraffic) st).doc.resources = st.doc.resources := by
  rcases st with ⟨d, lg⟩
  rcases h : d.trafficEstimate with _ | t <;>
    simp only [sanTraffic, h] <;> (try split) <;> (try split) <;> (try split) <;> simp

theorem sanTraffic_pres_businessInsights (st : SanState) :
    ((sanTraffic) st).doc.businessInsights = st.doc.businessInsights := by
  rcases st with ⟨d, lg⟩
  rcases h : d.trafficEstimate with _ | t <;>
    simp only [sanTraffic, h] <;> (try split) <;> (try split) <;> (try split) <;> simp

theorem sanTraffic_pres_conversionSignals (st : SanState) :
    ((sanTraffic) st).doc.conversionSignals = st.doc.conversionSignals := by
  rcases st with ⟨d, lg⟩
  rcases h : d.trafficEstimate with _ | t <;>
    simp only [sanTraffic, h] <;> (try split) <;> (try split) <;> (try split) <;> simp

theorem sanTraffic_pres_hosting (st : SanState) :
    ((sanTraffic) st).doc.hosting = st.doc.hosting := by
  rcases st with ⟨d, lg⟩
  rcases h : d.trafficEstimate with _ | t <;>
    simp only [sanTraffic, h] <;> (try split) <;> (try split) <;> (try split) <;> simp

theorem sanTraffic_pres_metadata (st : SanState) :
    ((sanTraffic) st).doc.metadata = st.doc.metadata := by
  rcases st with ⟨d, lg⟩
  rcases h : d.trafficEstimate with _ | t <;>
    simp only [sanTraffic, h] <;> (try split) <;> (try split) <;> (try split) <;> simp

theorem sanTraffic_pres_openGraph (st : SanState) :
    ((sanTraffic) st).doc.openGraph = st.doc.openGraph := by
  rcases st with ⟨d, lg⟩
  rcases h : d.trafficEstimate with _ | t <;>
    simp only [sanTraffic, h] <;> (try split) <;> (try split) <;> (try split) <;> simp

theorem sanTraffic_pres_imputationLog (st : SanState) :
    ((sanTraffic) st).doc.imputationLog = st.doc.imputationLog := by
  rcases st with ⟨d, lg⟩
  rcases h : d.trafficEstimate with _ | t <;>
    simp only [sanTraffic, h] <;> (try split) <;> (try split) <;> (try split) <;> simp

theorem sanTraffic_pres_summarySignals (st : SanState) :
    ((sanTraffic) st).doc.summarySignals = st.doc.summarySignals := by
  rcases st with ⟨d, lg⟩
  rcases h : d.trafficEstimate with _ | t <;>
    simp only [sanTraffic, h] <;> (try split) <;> (try split) <;> (try split) <;> simp

theorem sanBusiness_pres_canonical (st : SanState) :
    ((sanBusiness) st).doc.canonical = st.doc.canonical := by
  rcases st with ⟨d, lg⟩
  rcases h : d.businessInsights with _ | bi <;>
    simp only [sanBusiness, h] <;> (try split) <;> (try split) <;> (try split) <;> simp

theorem sanBusiness_pres_performance (st : SanState) :
    ((sanBusiness) st).doc.performance = st.doc.performance := by
  rcases st with ⟨d, lg⟩
  rcases h : d.businessInsights with _ | bi <;>
    simp only [sanBusiness, h] <;> (try split) <;> (try split) <;> (try split) <;> simp

theorem sanBusiness_pres_htmlMetrics (st : SanState) :
    ((sanBusiness) st).doc.htmlMetrics = st.doc.htmlMetrics := by
  rcases st with ⟨d, lg⟩
  rcases h : d.businessInsights with _ | bi <;>
    simp only [sanBusiness, h] <;> (try split) <;> (try split) <;> (try split) <;> simp

theorem sanBusiness_pres_content (st : SanState) :
    ((sanBusiness) st).doc.content = st.doc.content := by
  rcases st with ⟨d, lg⟩
  rcases h : d.businessInsights with _ | bi <;>
    simp only [sanBusiness, h] <;> (try split) <;> (try split) <;> (try split) <;> simp

theorem sanBusiness_pres_siteSignals (st : SanState) :
    ((sanBusiness) st).doc.siteSignals = st.doc.siteSignals := by
  rcases st with ⟨d, lg⟩
  rcases h : d.businessInsights with _ | bi <;>
    simp only [sanBusiness, h] <;> (try split) <;> (try split) <;> (try split) <;> simp

theorem sanBusiness_pres_security (st : SanState) :
    ((sanBusiness) st).doc.security = st.doc.security := by
  rcases st with ⟨d, lg⟩
  rcases h : d.businessInsights with _ | bi <;>
    simp only [sanBusiness, h] <;> (try split) <;> (try split) <;> (try split) <;> simp

theorem sanBusiness_pres_resources (st : SanState) :
    ((sanBusiness) st).doc.resources = st.doc.resources := by
  rcases st with ⟨d, lg⟩
  rcases h : d.businessInsights with _ | bi <;>
    simp only [sanBusiness, h] <;> (try split) <;> (try split) <;> (try split) <;> simp

theorem sanBusiness_pres_trafficEstimate (st : SanState) :
    ((sanBusiness) st).doc.trafficEstimate = st.doc.trafficEstimate := by
  rcases st with ⟨d, lg⟩
  rcases h : d.businessInsights with _ | bi <;>
    simp only [sanBusiness, h] <;> (try split) <;> (try split) <;> (try split) <;> simp

theorem sanBusiness_pres_conversionSignals (st : SanState) :
    ((sanBusiness) st).doc.conversionSignals = st.doc.conversionSignals := by
  rcases st with ⟨d, lg⟩
  rcases h : d.businessInsights with _ | bi <;>
    simp only [sanBusiness, h] <;> (try split) <;> (try split) <;> (try split) <;> simp

theorem sanBusiness_pres_hosting (st : SanState) :
    ((sanBusiness) st).doc.hosting = st.doc.hosting := by
  rcases st with ⟨d, lg⟩
  rcases h : d.businessInsights with _ | bi <;>
    simp only [sanBusiness, h] <;> (try split) <;> (try split) <;> (try split) <;> simp

theorem sanBusiness_pres_metadata (st : SanState) :
    ((sanBusiness) st).doc.metadata = st.doc.metadata := by
  rcases st with ⟨d, lg⟩
  rcases h : d.businessInsights with _ | bi <;>
    simp only [sanBusiness, h] <;> (try split) <;> (try split) <;> (try split) <;> simp

theorem sanBusiness_pres_openGraph (st : SanState) :
    ((sanBusiness) st).doc.openGraph = st.doc.openGraph := by
  rcases st with ⟨d, lg⟩
  rcases h : d.businessInsights with _ | bi <;>
    simp only [sanBusiness, h] <;> (try split) <;> (try split) <;> (try split) <;> simp

theorem sanBusiness_pres_imputationLog (st : SanState) :
    ((sanBusiness) st).doc.imputationLog = st.doc.imputationLog := by
  rcases st with ⟨d, lg⟩
  rcases h : d.businessInsights with _ | bi <;>
    simp only [sanBusiness, h] <;> (try split) <;> (try split) <;> (try split) <;> simp

theorem sanBusiness_pres_summarySignals (st : SanState) :
    ((sanBusiness) st).doc.summarySignals = st.doc.summarySignals := by
  rcases st with ⟨d, lg⟩
  rcases h : d.businessInsights with _ | bi <;>
    simp only [sanBusiness, h] <;> (try split) <;> (try split) <;> (try split) <;> simp

theorem sanSeo_log (st : SanState) : ∃ a, (sanSeo st).log = st.log ++ a := by
  rcases st with ⟨d, lg⟩
  rcases h : d.summarySignals with _ | ss
  · exact ⟨[], by simp [sanSeo, h]⟩
  · simp only [sanSeo, h]
    split
    · exact ⟨_, rfl⟩
    · exact ⟨[], by simp⟩

theorem sanAcc_log (st : SanState) : ∃ a, (sanAcc st).log = st.log ++ a := by
  rcases st with ⟨d, lg⟩
  rcases h : d.summarySignals with _ | ss
  · exact ⟨[], by simp [sanAcc, h]⟩
  · simp only [sanAcc, h]
    split
    · split
      · exact ⟨_, rfl⟩
      · split
        · exact ⟨_, rfl⟩
        · exact ⟨_, rfl⟩
    · split
      · exact ⟨_, rfl⟩
      · exact ⟨[], by simp⟩

theorem sanSec_log (st : SanState) : ∃ a, (sanSec st).log = st.log ++ a := by
  rcases st with ⟨d, lg⟩
  rcases h : d.summarySignals with _ | ss
  · exact ⟨[], by simp [sanSec, h]⟩
  · simp only [sanSec, h]
    split
    · exact ⟨_, rfl⟩
    · exact ⟨[], by simp⟩

theorem sanPerf_log (st : SanState) : ∃ a, (sanPerf st).log = st.log ++ a := by
  rcases st with ⟨d, lg⟩
  rcases h : d.summarySignals with _ | ss
  · exact ⟨[], by simp [sanPerf, h]⟩
  · simp only [sanPerf, h]
    split
    · exact ⟨[], by simp⟩
    · split
      · exact ⟨_, rfl⟩
      · split
        · exact ⟨_, rfl⟩
        · exact ⟨_, rfl⟩

theorem sanResources_log (st : SanState) : ∃ a, (sanResources st).log = st.log ++ a := by
  rcases st with ⟨d, lg⟩
  rcases h : d.resources with _ | r
  · exact ⟨[], by simp [sanResources, h]⟩
  · simp only [sanResources, h]
    split
    · split
      · exact ⟨_, List.append_assoc _ _ _⟩
      · exact ⟨_, rfl⟩
    · split
      · exact ⟨_, rfl⟩
      · exact ⟨[], by simp⟩

theorem sanTraffic_log (st : SanState) : ∃ a, (sanTraffic st).log = st.log ++ a := by
  rcases st with ⟨d, lg⟩
  rcases h : d.trafficEstimate with _ | t
  · exact ⟨[], by simp [sanTraffic, h]⟩
  · simp only [sanTraffic, h]
    split
    · split
      · exact ⟨_, rfl⟩
      · exact ⟨_, rfl⟩
    · exact ⟨[], by simp⟩

theorem sanBusiness_log (st : SanState) : ∃ a, (sanBusiness st).log = st.log ++ a := by
  rcases st with ⟨d, lg⟩
  rcases h : d.businessInsights with _ | bi
  · exact ⟨[], by simp [sanBusiness, h]⟩
  · simp only [sanBusiness, h]
    split
    · split
      · exact ⟨_, rfl⟩
      · exact ⟨_, rfl⟩
    · exact ⟨[], by simp⟩

/-
  Field-level preservation: blocks leave untouched score fields and
  untouched imputation descriptors unchanged.
-/

theorem sanAcc_seo_pres (st : SanState) :
    Option.map SummarySignals.seoScore (((sanAcc) st).doc.summarySignals) =
      Option.map SummarySignals.seoScore (st.doc.summarySignals) := by
  rcases st with ⟨d, lg⟩
  rcases h : d.summarySignals with _ | ss <;>
    simp only [sanAcc, h] <;> (try split) <;> (try split) <;> (try split) <;> simp [h]

theorem sanSec_seo_pres (st : SanState) :
    Option.map SummarySignals.seoScore (((sanSec) st).doc.summarySignals) =
      Option.map SummarySignals.seoScore (st.doc.summarySignals) := by
  rcases st with ⟨d, lg⟩
  rcases h : d.summarySignals with _ | ss <;>
    simp only [sanSec, h] <;> (try split) <;> (try split) <;> (try split) <;> simp [h]

theorem sanPerf_seo_pres (st : SanState) :
    Option.map SummarySignals.seoScore (((sanPerf) st).doc.summarySignals) =
      Option.map SummarySignals.seoScore (st.doc.summarySignals) := by
  rcases st with ⟨d, lg⟩
  rcases h : d.summarySignals with _ | ss <;>
    simp only [sanPerf, h] <;> (try split) <;> (try split) <;> (try split) <;> simp [h]

theorem sanSec_acc_pres (st : SanState) :
    Option.map SummarySignals.accessibilityScore (((sanSec) st).doc.summarySignals) =
      Option.map SummarySignals.accessibilityScore (st.doc.summarySignals) := by
  rcases st with ⟨d, lg⟩
  rcases h : d.summarySignals with _ | ss <;>
    simp only [sanSec, h] <;> (try split) <;> (try split) <;> (try split) <;> simp [h]

theorem sanPerf_acc_pres (st : SanState) :
    Option.map SummarySignals.accessibilityScore (((sanPerf) st).doc.summarySignals) =
      Option.map SummarySignals.accessibilityScore (st.doc.summarySignals) := by
  rcases st with ⟨d, lg⟩
  rcases h : d.summarySignals with _ | ss <;>
    simp only [sanPerf, h] <;> (try split) <;> (try split) <;> (try split) <;> simp [h]

theorem sanPerf_sec_pres (st : SanState) :
    Option.map SummarySignals.securityScore (((sanPerf) st).doc.summarySignals) =
      Option.map SummarySignals.securityScore (st.doc.summarySignals) := by
  rcases st with ⟨d, lg⟩
  rcases h : d.summarySignals with _ | ss <;>
    simp only [sanPerf, h] <;> (try split) <;> (try split) <;> (try split) <;> simp [h]

theorem sanSeo_acc_pres (st : SanState) :
    Option.map SummarySignals.accessibilityScore (((sanSeo) st).doc.summarySignals) =
      Option.map SummarySignals.accessibilityScore (st.doc.summarySignals) := by
  rcases st with ⟨d, lg⟩
  rcases h : d.summarySignals with _ | ss <;>
    simp only [sanSeo, h] <;> (try split) <;> (try split) <;> (try split) <;> simp [h]

theorem sanSeo_sec_pres (st : SanState) :
    Option.map SummarySignals.securityScore (((sanSeo) st).doc.summarySignals) =
      Option.map SummarySignals.securityScore (st.doc.summarySignals) := by
  rcases st with ⟨d, lg⟩
  rcases h : d.summarySignals with _ | ss <;>
    simp only [sanSeo, h] <;> (try split) <;> (try split) <;> (try split) <;> simp [h]

theorem sanAcc_sec_pres (st : SanState) :
    Option.map SummarySignals.securityScore (((sanAcc) st).doc.summarySignals) =
      Option.map SummarySignals.securityScore (st.doc.summarySignals) := by
  rcases st with ⟨d, lg⟩
  rcases h : d.summarySignals with _ | ss <;>
    simp only [sanAcc, h] <;> (try split) <;> (try split) <;> (try split) <;> simp [h]

theorem sanSeo_perfEst_pres (st : SanState) :
    Option.map SummarySignals.performanceEstimate (((sanSeo) st).doc.summarySignals) =
      Option.map SummarySignals.performanceEstimate (st.doc.summarySignals) := by
  rcases st with ⟨d, lg⟩
  rcases h : d.summarySignals with _ | ss <;>
    simp only [sanSeo, h] <;> (try split) <;> (try split) <;> (try split) <;> simp [h]

theorem sanAcc_perfEst_pres (st : SanState) :
    Option.map SummarySignals.performanceEstimate (((sanAcc) st).doc.summarySignals) =
      Option.map SummarySignals.performanceEstimate (st.doc.summarySignals) := by
  rcases st with ⟨d, lg⟩
  rcases h : d.summarySignals with _ | ss <;>
    simp only [sanAcc, h] <;> (try split) <;> (try split) <;> (try split) <;> simp [h]

theorem sanSec_perfEst_pres (st : SanState) :
    Option.map SummarySignals.performanceEstimate (((sanSec) st).doc.summarySignals) =
      Option.map SummarySignals.performanceEstimate (st.doc.summarySignals) := by
  rcases st with ⟨d, lg⟩
  rcases h : d.summarySignals with _ | ss <;>
    simp only [sanSec, h] <;> (try split) <;> (try split) <;> (try split) <;> simp [h]

theorem sanSeo_imppres_accessibilityScore (st : SanState) :
    ((sanSeo) st).doc.imputed.accessibilityScore = st.doc.imputed.accessibilityScore := by
  rcases st with ⟨d, lg⟩
  rcases h : d.summarySignals with _ | ss <;>
    simp only [sanSeo, h] <;> (try split) <;> (try split) <;> (try split) <;> simp

theorem sanSeo_imppres_securityScore (st : SanState) :
    ((sanSeo) st).doc.imputed.securityScore = st.doc.imputed.securityScore := by
  rcases st with ⟨d, lg⟩
  rcases h : d.summarySignals with _ | ss <;>
    simp only [sanSeo, h] <;> (try split) <;> (try split) <;> (try split) <;> simp

theorem sanSeo_imppres_performanceEstimate (st : SanState) :
    ((sanSeo) st).doc.imputed.performanceEstimate = st.doc.imputed.performanceEstimate := by
  rcases st with ⟨d, lg⟩
  rcases h : d.summarySignals with _ | ss <;>
    simp only [sanSeo, h] <;> (try split) <;> (try split) <;> (try split) <;> simp

theorem sanSeo_imppres_totalImageKB (st : SanState) :
    ((sanSeo) st).doc.imputed.totalImageKB = st.doc.imputed.totalImageKB := by
  rcases st with ⟨d, lg⟩
  rcases h : d.summarySignals with _ | ss <;>
    simp only [sanSeo, h] <;> (try split) <;> (try split) <;> (try split) <;> simp

theorem sanSeo_imppres_totalJsKB (st : SanState) :
    ((sanSeo) st).doc.imputed.totalJsKB = st.doc.imputed.totalJsKB := by
  rcases st with ⟨d, lg⟩
  rcases h : d.summarySignals with _ | ss <;>
    simp only [sanSeo, h] <;> (try split) <;> (try split) <;> (try split) <;> simp

theorem sanSeo_imppres_trafficEstimate (st : SanState) :
    ((sanSeo) st).doc.imputed.trafficEstimate = st.doc.imputed.trafficEstimate := by
  rcases st with ⟨d, lg⟩
  rcases h : d.summarySignals with _ | ss <;>
    simp only [sanSeo, h] <;> (try split) <;> (try split) <;> (try split) <;> simp

theorem sanSeo_imppres_businessModel (st : SanState) :
    ((sanSeo) st).doc.imputed.businessModel = st.doc.imputed.businessModel := by
  rcases st with ⟨d, lg⟩
  rcases h : d.summarySignals with _ | ss <;>
    simp only [sanSeo, h] <;> (try split) <;> (try split) <;> (try split) <;> simp

theorem sanAcc_imppres_seoScore (st : SanState) :
    ((sanAcc) st).doc.imputed.seoScore = st.doc.imputed.seoScore := by
  rcases st with ⟨d, lg⟩
  rcases h : d.summarySignals with _ | ss <;>
    simp only [sanAcc, h] <;> (try split) <;> (try split) <;> (try split) <;> simp

theorem sanAcc_imppres_securityScore (st : SanState) :
    ((sanAcc) st).doc.imputed.securityScore = st.doc.imputed.securityScore := by
  rcases st with ⟨d, lg⟩
  rcases h : d.summarySignals with _ | ss <;>
    simp only [sanAcc, h] <;> (try split) <;> (try split) <;> (try split) <;> simp

theorem sanAcc_imppres_performanceEstimate (st : SanState) :
    ((sanAcc) st).doc.imputed.performanceEstimate = st.doc.imputed.performanceEstimate := by
  rcases st with ⟨d, lg⟩
  rcases h : d.summarySignals with _ | ss <;>
    simp only [sanAcc, h] <;> (try split) <;> (try split) <;> (try split) <;> simp

theorem sanAcc_imppres_totalImageKB (st : SanState) :
    ((sanAcc) st).doc.imputed.totalImageKB = st.doc.imputed.totalImageKB := by
  rcases st with ⟨d, lg⟩
  rcases h : d.summarySignals with _ | ss <;>
    simp only [sanAcc, h] <;> (try split) <;> (try split) <;> (try split) <;> simp

theorem sanAcc_imppres_totalJsKB (st : SanState) :
    ((sanAcc) st).doc.imputed.totalJsKB = st.doc.imputed.totalJsKB := by
  rcases st with ⟨d, lg⟩
  rcases h : d.summarySignals with _ | ss <;>
    simp only [sanAcc, h] <;> (try split) <;> (try split) <;> (try split) <;> simp

theorem sanAcc_imppres_trafficEstimate (st : SanState) :
    ((sanAcc) st).doc.imputed.trafficEstimate = st.doc.imputed.trafficEstimate := by
  rcases st with ⟨d, lg⟩
  rcases h : d.summarySignals with _ | ss <;>
    simp only [sanAcc, h] <;> (try split) <;> (try split) <;> (try split) <;> simp

theorem sanAcc_imppres_businessModel (st : SanState) :
    ((sanAcc) st).doc.imputed.businessModel = st.doc.imputed.businessModel := by
  rcases st with ⟨d, lg⟩
  rcases h : d.summarySignals with _ | ss <;>
    simp only [sanAcc, h] <;> (try split) <;> (try split) <;> (try split) <;> simp

theorem sanSec_imppres_seoScore (st : SanState) :
    ((sanSec) st).doc.imputed.seoScore = st.doc.imputed.seoScore := by
  rcases st with ⟨d, lg⟩
  rcases h : d.summarySignals with _ | ss <;>
    simp only [sanSec, h] <;> (try split) <;> (try split) <;> (try split) <;> simp

theorem sanSec_imppres_accessibilityScore (st : SanState) :
    ((sanSec) st).doc.imputed.accessibilityScore = st.doc.imputed.accessibilityScore := by
  rcases st with ⟨d, lg⟩
  rcases h : d.summarySignals with _ | ss <;>
    simp only [sanSec, h] <;> (try split) <;> (try split) <;> (try split) <;> simp

theorem sanSec_imppres_performanceEstimate (st : SanState) :
    ((sanSec) st).doc.imputed.performanceEstimate = st.doc.imputed.performanceEstimate := by
  rcases st with ⟨d, lg⟩
  rcases h : d.summarySignals with _ | ss <;>
    simp only [sanSec, h] <;> (try split) <;> (try split) <;> (try split) <;> simp

theorem sanSec_imppres_totalImageKB (st : SanState) :
    ((sanSec) st).doc.imputed.totalImageKB = st.doc.imputed.totalImageKB := by
  rcases st with ⟨d, lg⟩
  rcases h : d.summarySignals with _ | ss <;>
    simp only [sanSec, h] <;> (try split) <;> (try split) <;> (try split) <;> simp

theorem sanSec_imppres_totalJsKB (st : SanState) :
    ((sanSec) st).doc.imputed.totalJsKB = st.doc.imputed.totalJsKB := by
  rcases st with ⟨d, lg⟩
  rcases h : d.summarySignals with _ | ss <;>
    simp only [sanSec, h] <;> (try split) <;> (try split) <;> (try split) <;> simp

theorem sanSec_imppres_trafficEstimate (st : SanState) :
    ((sanSec) st).doc.imputed.trafficEstimate = st.doc.imputed.trafficEstimate := by
  rcases st with ⟨d, lg⟩
  rcases h : d.summarySignals with _ | ss <;>
    simp only [sanSec, h] <;> (try split) <;> (try split) <;> (try split) <;> simp

theorem sanSec_imppres_businessModel (st : SanState) :
    ((sanSec) st).doc.imputed.businessModel = st.doc.imputed.businessModel := by
  rcases st with ⟨d, lg⟩
  rcases h : d.summarySignals with _ | ss <;>
    simp only [sanSec, h] <;> (try split) <;> (try split) <;> (try split) <;> simp

theorem sanPerf_imppres_seoScore (st : SanState) :
    ((sanPerf) st).doc.imputed.seoScore = st.doc.imputed.seoScore := by
  rcases st with ⟨d, lg⟩
  rcases h : d.summarySignals with _ | ss <;>
    simp only [sanPerf, h] <;> (try split) <;> (try split) <;> (try split) <;> simp

theorem sanPerf_imppres_accessibilityScore (st : SanState) :
    ((sanPerf) st).doc.imputed.accessibilityScore = st.doc.imputed.accessibilityScore := by
  rcases st with ⟨d, lg⟩
  rcases h : d.summarySignals with _ | ss <;>
    simp only [sanPerf, h] <;> (try split) <;> (try split) <;> (try split) <;> simp

theorem sanPerf_imppres_securityScore (st : SanState) :
    ((sanPerf) st).doc.imputed.securityScore = st.doc.imputed.securityScore := by
  rcases st with ⟨d, lg⟩
  rcases h : d.summarySignals with _ | ss <;>
    simp only [sanPerf, h] <;> (try split) <;> (try split) <;> (try split) <;> simp

theorem sanPerf_imppres_totalImageKB (st : SanState) :
    ((sanPerf) st).doc.imputed.totalImageKB = st.doc.imputed.totalImageKB := by
  rcases st with ⟨d, lg⟩
  rcases h : d.summarySignals with _ | ss <;>
    simp only [sanPerf, h] <;> (try split) <;> (try split) <;> (try split) <;> simp

theorem sanPerf_imppres_totalJsKB (st : SanState) :
    ((sanPerf) st).doc.imputed.totalJsKB = st.doc.imputed.totalJsKB := by
  rcases st with ⟨d, lg⟩
  rcases h : d.summarySignals with _ | ss <;>
    simp only [sanPerf, h] <;> (try split) <;> (try split) <;> (try split) <;> simp

theorem sanPerf_imppres_trafficEstimate (st : SanState) :
    ((sanPerf) st).doc.imputed.trafficEstimate = st.doc.imputed.trafficEstimate := by
  rcases st with ⟨d, lg⟩
  rcases h : d.summarySignals with _ | ss <;>
    simp only [sanPerf, h] <;> (try split) <;> (try split) <;> (try split) <;> simp

theorem sanPerf_imppres_businessModel (st : SanState) :
    ((sanPerf) st).doc.imputed.businessModel = st.doc.imputed.businessModel := by
  rcases st with ⟨d, lg⟩
  rcases h : d.summarySignals with _ | ss <;>
    simp only [sanPerf, h] <;> (try split) <;> (try split) <;> (try split) <;> simp

theorem sanResources_imppres_seoScore (st : SanState) :
    ((sanResources) st).doc.imputed.seoScore = st.doc.imputed.seoScore := by
  rcases st with ⟨d, lg⟩
  rcases h : d.resources with _ | r <;>
    simp only [sanResources, h] <;> (try split) <;> (try split) <;> (try split) <;> simp

theorem sanResources_imppres_accessibilityScore (st : SanState) :
    ((sanResources) st).doc.imputed.accessibilityScore = st.doc.imputed.accessibilityScore := by
  rcases st with ⟨d, lg⟩
  rcases h : d.resources with _ | r <;>
    simp only [sanResources, h] <;> (try split) <;> (try split) <;> (try split) <;> simp

theorem sanResources_imppres_securityScore (st : SanState) :
    ((sanResources) st).doc.imputed.securityScore = st.doc.imputed.securityScore := by
  rcases st with ⟨d, lg⟩
  rcases h : d.resources with _ | r <;>
    simp only [sanResources, h] <;> (try split) <;> (try split) <;> (try split) <;> simp

theorem sanResources_imppres_performanceEstimate (st : SanState) :
    ((sanResources) st).doc.imputed.performanceEstimate = st.doc.imputed.performanceEstimate := by
  rcases st with ⟨d, lg⟩
  rcases h : d.resources with _ | r <;>
    simp only [sanResources, h] <;> (try split) <;> (try split) <;> (try split) <;> simp

theorem sanResources_imppres_trafficEstimate (st : SanState) :
    ((sanResources) st).doc.imputed.trafficEstimate = st.doc.imputed.trafficEstimate := by
  rcases st with ⟨d, lg⟩
  rcases h : d.resources with _ | r <;>
    simp only [sanResources, h] <;> (try split) <;> (try split) <;> (try split) <;> simp

theorem sanResources_imppres_businessModel (st : SanState) :
    ((sanResources) st).doc.imputed.businessModel = st.doc.imputed.businessModel := by
  rcases st with ⟨d, lg⟩
  rcases h : d.resources with _ | r <;>
    simp only [sanResources, h] <;> (try split) <;> (try split) <;> (try split) <;> simp

theorem sanTraffic_imppres_seoScore (st : SanState) :
    ((sanTraffic) st).doc.imputed.seoScore = st.doc.imputed.seoScore := by
  rcases st with ⟨d, lg⟩
  rcases h : d.trafficEstimate with _ | t <;>
    simp only [sanTraffic, h] <;> (try split) <;> (try split) <;> (try split) <;> simp

theorem sanTraffic_imppres_accessibilityScore (st : SanState) :
    ((sanTraffic) st).doc.imputed.accessibilityScore = st.doc.imputed.accessibilityScore := by
  rcases st with ⟨d, lg⟩
  rcases h : d.trafficEstimate with _ | t <;>
    simp only [sanTraffic, h] <;> (try split) <;> (try split) <;> (try split) <;> simp

theorem sanTraffic_imppres_securityScore (st : SanState) :
    ((sanTraffic) st).doc.imputed.securityScore = st.doc.imputed.securityScore := by
  rcases st with ⟨d, lg⟩
  rcases h : d.trafficEstimate with _ | t <;>
    simp only [sanTraffic, h] <;> (try split) <;> (try split) <;> (try split) <;> simp

theorem sanTraffic_imppres_performanceEstimate (st : SanState) :
    ((sanTraffic) st).doc.imputed.performanceEstimate = st.doc.imputed.performanceEstimate := by
  rcases st with ⟨d, lg⟩
  rcases h : d.trafficEstimate with _ | t <;>
    simp only [sanTraffic, h] <;> (try split) <;> (try split) <;> (try split) <;> simp

theorem sanTraffic_imppres_totalImageKB (st : SanState) :
    ((sanTraffic) st).doc.imputed.totalImageKB = st.doc.imputed.totalImageKB := by
  rcases st with ⟨d, lg⟩
  rcases h : d.trafficEstimate with _ | t <;>
    simp only [sanTraffic, h] <;> (try split) <;> (try split) <;> (try split) <;> simp

theorem sanTraffic_imppres_totalJsKB (st : SanState) :
    ((sanTraffic) st).doc.imputed.totalJsKB = st.doc.imputed.totalJsKB := by
  rcases st with ⟨d, lg⟩
  rcases h : d.trafficEstimate with _ | t <;>
    simp only [sanTraffic, h] <;> (try split) <;> (try split) <;> (try split) <;> simp

theorem sanTraffic_imppres_businessModel (st : SanState) :
    ((sanTraffic) st).doc.imputed.businessModel = st.doc.imputed.businessModel := by
  rcases st with ⟨d, lg⟩
  rcases h : d.trafficEstimate with _ | t <;>
    simp only [sanTraffic, h] <;> (try split) <;> (try split) <;> (try split) <;> simp

theorem sanBusiness_imppres_seoScore (st : SanState) :
    ((sanBusiness) st).doc.imputed.seoScore = st.doc.imputed.seoScore := by
  rcases st with ⟨d, lg⟩
  rcases h : d.businessInsights with _ | bi <;>
    simp only [sanBusiness, h] <;> (try split) <;> (try split) <;> (try split) <;> simp

theorem sanBusiness_imppres_accessibilityScore (st : SanState) :
    ((sanBusiness) st).doc.imputed.accessibilityScore = st.doc.imputed.accessibilityScore := by
  rcases st with ⟨d, lg⟩
  rcases h : d.businessInsights with _ | bi <;>
    simp only [sanBusiness, h] <;> (try split) <;> (try split) <;> (try split) <;> simp

theorem sanBusiness_imppres_securityScore (st : SanState) :
    ((sanBusiness) st).doc.imputed.securityScore = st.doc.imputed.securityScore := by
  rcases st with ⟨d, lg⟩
  rcases h : d.businessInsights with _ | bi <;>
    simp only [sanBusiness, h] <;> (try split) <;> (try split) <;> (try split) <;> simp

theorem sanBusiness_imppres_performanceEstimate (st : SanState) :
    ((sanBusiness) st).doc.imputed.performanceEstimate = st.doc.imputed.performanceEstimate := by
  rcases st with ⟨d, lg⟩
  rcases h : d.businessInsights with _ | bi <;>
    simp only [sanBusiness, h] <;> (try split) <;> (try split) <;> (try split) <;> simp

theorem sanBusiness_imppres_totalImageKB (st : SanState) :
    ((sanBusiness) st).doc.imputed.totalImageKB = st.doc.imputed.totalImageKB := by
  rcases st with ⟨d, lg⟩
  rcases h : d.businessInsights with _ | bi <;>
    simp only [sanBusiness, h] <;> (try split) <;> (try split) <;> (try split) <;> simp

theorem sanBusiness_imppres_totalJsKB (st : SanState) :
    ((sanBusiness) st).doc.imputed.totalJsKB = st.doc.imputed.totalJsKB := by
  rcases st with ⟨d, lg⟩
  rcases h : d.businessInsights with _ | bi <;>
    simp only [sanBusiness, h] <;> (try split) <;> (try split) <;> (try split) <;> simp

theorem sanBusiness_imppres_trafficEstimate (st : SanState) :
    ((sanBusiness) st).doc.imputed.trafficEstimate = st.doc.imputed.trafficEstimate := by
  rcases st with ⟨d, lg⟩
  rcases h : d.businessInsights with _ | bi <;>
    simp only [sanBusiness, h] <;> (try split) <;> (try split) <;> (try split) <;> simp

theorem coerceJ_eq (v : JVal) : coerceJ v = v := by
  cases v <;> rfl

theorem sanCoerce_eq (st : SanState) : sanCoerce st = st := by
  rcases st with ⟨d, lg⟩
  rcases d with ⟨c, ss, pf, hm, ct, si, se, re, te, bi, cv, ho, me, og, im, il⟩
  cases re <;> cases ss <;> cases pf <;> simp [sanCoerce, coerceJ_eq]

/-
  Range lemmas for the clamp and the derived scores.
-/

theorem qclamp_nonneg (x : ℚ) : 0 ≤ qmax 0 (qmin 100 x) := by
  rw [qmax_eq]
  exact le_max_left _ _

theorem qclamp_le (x : ℚ) : qmax 0 (qmin 100 x) ≤ 100 := by
  rw [qmax_eq, qmin_eq]
  exact max_le (by norm_num) (min_le_left _ _)

theorem jclamp_num_inRange (q : ℚ) : inRangeNum (jclamp (JVal.num q)) = true := by
  simp only [jclamp, inRangeNum, Bool.and_eq_true, decide_eq_true_eq]
  exact ⟨qclamp_nonneg _, qclamp_le _⟩

theorem inRangeNum_isNumber (v : JVal) (h : inRangeNum v = true) : v.isNumber = true := by
  cases v <;> simp_all [inRangeNum, JVal.isNumber]

theorem scoreOkB_of_inRange (v : JVal) (h : inRangeNum v = true) : scoreOkB v = true := by
  cases v <;> simp_all [inRangeNum, scoreOkB]

theorem jclamp_of_inRange (v : JVal) (h : inRangeNum v = true) : jclamp v = v := by
  cases v with
  | null => rfl
  | nan => rfl
  | num q =>
    simp only [inRangeNum, Bool.and_eq_true, decide_eq_true_eq] at h
    simp only [jclamp, qmax_eq, qmin_eq]
    rw [min_eq_right h.2, max_eq_right h.1]

theorem jclamp_isNumber_inRange (v : JVal) (h : v.isNumber = true) :
    inRangeNum (jclamp v) = true := by
  cases v with
  | null => simp [JVal.isNumber] at h
  | nan => simp [JVal.isNumber] at h
  | num q => exact jclamp_num_inRange q

theorem seoChecklist_inRange (d : Doc) : inRangeNum (JVal.num (seoChecklist d)) = true := by
  simp only [inRangeNum, Bool.and_eq_true, decide_eq_true_eq, seoChecklist, qofNat_eq]
  constructor
  · positivity
  · have h : ((if seoHasTitle d then 20 else 0) + (if seoHasDescription d then 20 else 0)
        + (if seoHasKeywords d then 20 else 0) + (if seoHasSitemap d then 20 else 0)
        + (if seoHasH1 d then 20 else 0) : ℕ) ≤ 100 := by
      split_ifs <;> norm_num
    exact_mod_cast h

theorem seoChecklist_all_hundred (d : Doc) (h1 : seoHasTitle d = true)
    (h2 : seoHasDescription d = true) (h3 : seoHasKeywords d = true)
    (h4 : seoHasSitemap d = true) (h5 : seoHasH1 d = true) : seoChecklist d = 100 := by
  simp only [seoChecklist, h1, h2, h3, h4, h5, if_true]
  rw [qofNat_eq]
  norm_num

theorem securityHeaderScore_inRange (se : Option Security) :
    inRangeNum (JVal.num (securityHeaderScore se)) = true := by
  rcases se with _ | s
  · simp [securityHeaderScore, inRangeNum]
  · simp only [securityHeaderScore, inRangeNum, Bool.and_eq_true, decide_eq_true_eq, qofNat_eq]
    constructor
    · positivity
    · have h : ((if s.hasCSP then 33 else 0) + (if s.hasHSTS then 33 else 0)
          + (if s.hasXFrame then 34 else 0) : ℕ) ≤ 100 := by
        split_ifs <;> norm_num
      exact_mod_cast h

/-
  Behaviour of the individual sanitize blocks on a present `summarySignals`.
-/

theorem sanSeo_invalid (st : SanState) (ss : SummarySignals)
    (hss : st.doc.summarySignals = some ss)
    (h : (!ss.seoScore.isNumber || jlt ss.seoScore 0 || jgt ss.seoScore 100) = true) :
    (sanSeo st).doc.summarySignals =
        some { ss with seoScore := jclamp (JVal.num (seoChecklist st.doc)) } ∧
      (sanSeo st).doc.imputed.seoScore =
        some (impMethod "heuristic: title/meta/h1/keywords/sitemap") := by
  simp only [sanSeo, hss, h, if_true]
  exact ⟨trivial, trivial⟩

theorem sanSeo_valid (st : SanState) (ss : SummarySignals)
    (hss : st.doc.summarySignals = some ss)
    (h : (!ss.seoScore.isNumber || jlt ss.seoScore 0 || jgt ss.seoScore 100) = false) :
    (sanSeo st).doc.summarySignals = some { ss with seoScore := jclamp ss.seoScore } ∧
      (sanSeo st).doc.imputed = st.doc.imputed ∧ (sanSeo st).log = st.log := by
  simp only [sanSeo, hss, h, Bool.false_eq_true, if_false]
  exact ⟨trivial, trivial, trivial⟩

theorem sanSeo_out_ok (st : SanState) (ss : SummarySignals)
    (hss : st.doc.summarySignals = some ss) :
    ∃ ss1, (sanSeo st).doc.summarySignals = some ss1 ∧
      inRangeNum ss1.seoScore = true ∧
      ss1.accessibilityScore = ss.accessibilityScore ∧
      ss1.securityScore = ss.securityScore ∧
      ss1.performanceEstimate = ss.performanceEstimate := by
  rcases hc : (!ss.seoScore.isNumber || jlt ss.seoScore 0 || jgt ss.seoScore 100) with _ | _
  · refine ⟨_, (sanSeo_valid st ss hss hc).1, ?_, rfl, rfl, rfl⟩
    have hnum : ss.seoScore.isNumber = true := by
      rcases hv : ss.seoScore.isNumber with _ | _
      · rw [hv] at hc; simp at hc
      · rfl
    exact jclamp_isNumber_inRange _ hnum
  · refine ⟨_, (sanSeo_invalid st ss hss hc).1, ?_, rfl, rfl, rfl⟩
    exact jclamp_num_inRange _

theorem sanAcc_adopt (st : SanState) (ss : SummarySignals)
    (hss : st.doc.summarySignals = some ss)
    (hlh : (lhAccOf st.doc).isNumber = true)
    (hacc : ss.accessibilityScore.isNumber = false) :
    (sanAcc st).doc.summarySignals =
        some { ss with accessibilityScore := jclamp (lhAccOf st.doc) } ∧
      (sanAcc st).doc.imputed.accessibilityScore =
        some (impMethod "from lighthouse accessibilityScore") := by
  simp only [sanAcc, hss, hlh, hacc, Bool.not_false, if_true]
  exact ⟨trivial, trivial⟩

theorem sanAcc_blend_far (st : SanState) (ss : SummarySignals) (a l : ℚ)
    (hss : st.doc.summarySignals = some ss)
    (ha : ss.accessibilityScore = JVal.num a)
    (hl : lhAccOf st.doc = JVal.num l)
    (hd : qabs (qsub a l) > 20) :
    (sanAcc st).doc.summarySignals =
        some { ss with accessibilityScore := jclamp (JVal.num ((jround (qdivn (qadd a l) 2) : ℤ) : ℚ)) } ∧
      (sanAcc st).doc.imputed.accessibilityScore =
        some (impMethod ("blend heuristic avg(" ++ qstr a ++ ", " ++ qstr l
          ++ ") due to diff " ++ qstr (qabs (qsub a l)))) := by
  simp only [sanAcc, hss, ha, hl, JVal.isNumber, Bool.not_true, jvalOrZero]
  rw [if_pos trivial]
  simp only [Bool.false_eq_true, if_false, if_pos hd]
  exact ⟨trivial, trivial⟩

theorem sanAcc_blend_near (st : SanState) (ss : SummarySignals) (a l : ℚ)
    (hss : st.doc.summarySignals = some ss)
    (ha : ss.accessibilityScore = JVal.num a)
    (hl : lhAccOf st.doc = JVal.num l)
    (hd : ¬(qabs (qsub a l) > 20)) :
    (sanAcc st).doc.summarySignals =
        some { ss with accessibilityScore := jclamp (JVal.num (qdivn (qadd a l) 2)) } ∧
      (sanAcc st).doc.imputed.accessibilityScore = st.doc.imputed.accessibilityScore := by
  simp only [sanAcc, hss, ha, hl, JVal.isNumber, Bool.not_true, jvalOrZero]
  rw [if_pos trivial]
  simp only [Bool.false_eq_true, if_false, if_neg hd]
  exact ⟨trivial, trivial⟩

theorem sanAcc_noLh (st : SanState) (ss : SummarySignals)
    (hss : st.doc.summarySignals = some ss)
    (hlh : (lhAccOf st.doc).isNumber = false) :
    (sanAcc st).doc.summarySignals =
        some { ss with accessibilityScore := jclamp (if ss.accessibilityScore = JVal.null then JVal.num 50 else ss.accessibilityScore) } ∧
      (ss.accessibilityScore.isNumber = false →
        (sanAcc st).doc.imputed.accessibilityScore =
          some (impMethod "fallback default 50")) ∧
      (ss.accessibilityScore.isNumber = true →
        (sanAcc st).doc.imputed.accessibilityScore = st.doc.imputed.accessibilityScore) := by
  simp only [sanAcc, hss, hlh, Bool.false_eq_true, if_false]
  refine ⟨?_, ?_, ?_⟩
  · split <;> trivial
  · intro h
    simp [h]
  · intro h
    simp [h]

theorem sanAcc_out_ok (st : SanState) (ss : SummarySignals)
    (hss : st.doc.summarySignals = some ss)
    (hok : ss.accessibilityScore ≠ JVal.nan ∨ (lhAccOf st.doc).isNumber = true) :
    ∃ ss2, (sanAcc st).doc.summarySignals = some ss2 ∧
      inRangeNum ss2.accessibilityScore = true ∧
      ss2.seoScore = ss.seoScore ∧
      ss2.securityScore = ss.securityScore ∧
      ss2.performanceEstimate = ss.performanceEstimate := by
  rcases hlh : (lhAccOf st.doc).isNumber with _ | _
  · have hnan : ss.accessibilityScore ≠ JVal.nan := by
      rcases hok with h | h
      · exact h
      · rw [hlh] at h; simp at h
    refine ⟨_, (sanAcc_noLh st ss hss hlh).1, ?_, rfl, rfl, rfl⟩
    rcases hv : ss.accessibilityScore with _ | _ | q
    · simp only [if_pos rfl]
      exact jclamp_num_inRange 50
    · exact absurd hv hnan
    · rw [if_neg (by simp [hv])]
      exact jclamp_num_inRange q
  · rcases hv : ss.accessibilityScore with _ | _ | q
    · refine ⟨_, (sanAcc_adopt st ss hss hlh (by simp [hv, JVal.isNumber])).1, ?_, rfl, rfl, rfl⟩
      exact jclamp_isNumber_inRange _ hlh
    · refine ⟨_, (sanAcc_adopt st ss hss hlh (by simp [hv, JVal.isNumber])).1, ?_, rfl, rfl, rfl⟩
      exact jclamp_isNumber_inRange _ hlh
    · rcases hlv : lhAccOf st.doc with _ | _ | l
      · rw [hlv] at hlh; simp [JVal.isNumber] at hlh
      · rw [hlv] at hlh; simp [JVal.isNumber] at hlh
      · by_cases hd : qabs (qsub q l) > 20
        · refine ⟨_, (sanAcc_blend_far st ss q l hss hv hlv hd).1, ?_, rfl, rfl, rfl⟩
          exact jclamp_num_inRange _
        · refine ⟨_, (sanAcc_blend_near st ss q l hss hv hlv hd).1, ?_, rfl, rfl, rfl⟩
          exact jclamp_num_inRange _

theorem sanSec_out (st : SanState) (ss : SummarySignals)
    (hss : st.doc.summarySignals = some ss) :
    (sanSec st).doc.summarySignals =
        some { ss with securityScore := jclamp (if ss.securityScore.isNumber then ss.securityScore else JVal.num (securityHeaderScore st.doc.security)) } ∧
      (ss.securityScore.isNumber = false →
        (sanSec st).doc.imputed.securityScore =
          some (impMethod "derived from security headers flags")) ∧
      (ss.securityScore.isNumber = true →
        (sanSec st).doc.imputed.securityScore = st.doc.imputed.securityScore) := by
  simp only [sanSec, hss]
  refine ⟨?_, ?_, ?_⟩
  · split <;> trivial
  · intro h
    simp [h]
  · intro h
    simp [h]

theorem sanSec_out_ok (st : SanState) (ss : SummarySignals)
    (hss : st.doc.summarySignals = some ss) :
    ∃ ss3, (sanSec st).doc.summarySignals = some ss3 ∧
      inRangeNum ss3.securityScore = true ∧
      ss3.seoScore = ss.seoScore ∧
      ss3.accessibilityScore = ss.accessibilityScore ∧
      ss3.performanceEstimate = ss.performanceEstimate := by
  have h1 := (sanSec_out st ss hss).1
  rcases h : ss.securityScore.isNumber with _ | _
  · rw [h, if_neg (by simp)] at h1
    exact ⟨_, h1, jclamp_num_inRange _, rfl, rfl, rfl⟩
  · rw [h, if_pos rfl] at h1
    exact ⟨_, h1, jclamp_isNumber_inRange _ h, rfl, rfl, rfl⟩

theorem inRangeNum_clampval (e : ℚ) : inRangeNum (JVal.num (qmax 0 (qmin 100 e))) = true := by
  simp only [inRangeNum, Bool.and_eq_true, decide_eq_true_eq]
  exact ⟨qclamp_nonneg _, qclamp_le _⟩

theorem sanPerf_valid (st : SanState) (ss : SummarySignals)
    (hss : st.doc.summarySignals = some ss)
    (h : ss.performanceEstimate.isNumber = true) :
    (sanPerf st).doc.summarySignals =
        some { ss with performanceEstimate := jclamp ss.performanceEstimate } ∧
      (sanPerf st).doc.imputed = st.doc.imputed ∧ (sanPerf st).log = st.log := by
  simp only [sanPerf, hss, h, if_true]
  exact ⟨trivial, trivial, trivial⟩

theorem sanPerf_out_ok (st : SanState) (ss : SummarySignals)
    (hss : st.doc.summarySignals = some ss) :
    ∃ ss4, (sanPerf st).doc.summarySignals = some ss4 ∧
      scoreOkB ss4.performanceEstimate = true ∧
      (ss.performanceEstimate.isNumber = true → inRangeNum ss4.performanceEstimate = true) ∧
      ss4.seoScore = ss.seoScore ∧
      ss4.accessibilityScore = ss.accessibilityScore ∧
      ss4.securityScore = ss.securityScore := by
  rcases h : ss.performanceEstimate.isNumber with _ | _
  · simp only [sanPerf, hss, h, Bool.false_eq_true, if_false]
    split
    · rename_i hlh
      refine ⟨_, rfl, ?_, fun hk => hk.elim, rfl, rfl, rfl⟩
      exact scoreOkB_of_inRange _ (jclamp_isNumber_inRange _ hlh)
    · split
      · refine ⟨_, rfl, ?_, fun hk => hk.elim, rfl, rfl, rfl⟩
        exact scoreOkB_of_inRange _ (inRangeNum_clampval _)
      · exact ⟨_, rfl, rfl, fun hk => hk.elim, rfl, rfl, rfl⟩
  · refine ⟨_, (sanPerf_valid st ss hss h).1, ?_, fun _ => ?_, rfl, rfl, rfl⟩
    · exact scoreOkB_of_inRange _ (jclamp_isNumber_inRange _ h)
    · exact jclamp_isNumber_inRange _ h

theorem sanWatch_canonical (st : SanState) : (sanWatch st).doc.canonical = st.doc.canonical := rfl

theorem sanFinal_canonical (st : SanState) : (sanFinal st).canonical = st.doc.canonical := rfl

theorem sanWatch_summarySignals (st : SanState) : (sanWatch st).doc.summarySignals = st.doc.summarySignals := rfl

theorem sanFinal_summarySignals (st : SanState) : (sanFinal st).summarySignals = st.doc.summarySignals := rfl

theorem sanWatch_performance (st : SanState) : (sanWatch st).doc.performance = st.doc.performance := rfl

theorem sanFinal_performance (st : SanState) : (sanFinal st).performance = st.doc.performance := rfl

theorem sanWatch_htmlMetrics (st : SanState) : (sanWatch st).doc.htmlMetrics = st.doc.htmlMetrics := rfl

theorem sanFinal_htmlMetrics (st : SanState) : (sanFinal st).htmlMetrics = st.doc.htmlMetrics := rfl

theorem sanWatch_content (st : SanState) : (sanWatch st).doc.content = st.doc.content := rfl

theorem sanFinal_content (st : SanState) : (sanFinal st).content = st.doc.content := rfl

theorem sanWatch_siteSignals (st : SanState) : (sanWatch st).doc.siteSignals = st.doc.siteSignals := rfl

theorem sanFinal_siteSignals (st : SanState) : (sanFinal st).siteSignals = st.doc.siteSignals := rfl

theorem sanWatch_security (st : SanState) : (sanWatch st).doc.security = st.doc.security := rfl

theorem sanFinal_security (st : SanState) : (sanFinal st).security = st.doc.security := rfl

theorem sanWatch_resources (st : SanState) : (sanWatch st).doc.resources = st.doc.resources := rfl

theorem sanFinal_resources (st : SanState) : (sanFinal st).resources = st.doc.resources := rfl

theorem sanWatch_trafficEstimate (st : SanState) : (sanWatch st).doc.trafficEstimate = st.doc.trafficEstimate := rfl

theorem sanFinal_trafficEstimate (st : SanState) : (sanFinal st).trafficEstimate = st.doc.trafficEstimate := rfl

theorem sanWatch_businessInsights (st : SanState) : (sanWatch st).doc.businessInsights = st.doc.businessInsights := rfl

theorem sanFinal_businessInsights (st : SanState) : (sanFinal st).businessInsights = st.doc.businessInsights := rfl

theorem sanWatch_conversionSignals (st : SanState) : (sanWatch st).doc.conversionSignals = st.doc.conversionSignals := rfl

theorem sanFinal_conversionSignals (st : SanState) : (sanFinal st).conversionSignals = st.doc.conversionSignals := rfl

theorem sanWatch_hosting (st : SanState) : (sanWatch st).doc.hosting = st.doc.hosting := rfl

theorem sanFinal_hosting (st : SanState) : (sanFinal st).hosting = st.doc.hosting := rfl

theorem sanWatch_metadata (st : SanState) : (sanWatch st).doc.metadata = st.doc.metadata := rfl

theorem sanFinal_metadata (st : SanState) : (sanFinal st).metadata = st.doc.metadata := rfl

theorem sanWatch_openGraph (st : SanState) : (sanWatch st).doc.openGraph = st.doc.openGraph := rfl

theorem sanFinal_openGraph (st : SanState) : (sanFinal st).openGraph = st.doc.openGraph := rfl

theorem sanWatch_imputed (st : SanState) : (sanWatch st).doc.imputed = st.doc.imputed := rfl

theorem sanFinal_imputed (st : SanState) : (sanFinal st).imputed = st.doc.imputed := rfl

theorem sanWatch_log_eq (st : SanState) : (sanWatch st).log = st.log := rfl

theorem sanWatch_imputationLog (st : SanState) :
    (sanWatch st).doc.imputationLog = st.doc.imputationLog ++ watchEntries st.doc := rfl

theorem sanFinal_imputationLog (st : SanState) :
    (sanFinal st).imputationLog = st.doc.imputationLog ++ st.log := rfl


/-
  Reduction of the composed sanitize pass to the block that writes each
  field, using the preservation lemmas.
-/

theorem sanitize_ss_reduce (d : Doc) :
    (sanitizeAndImpute d).summarySignals =
      (sanPerf (sanSec (sanAcc (sanSeo ⟨d, []⟩)))).doc.summarySignals := by
  unfold sanitizeAndImpute
  rw [sanCoerce_eq, sanFinal_summarySignals, sanWatch_summarySignals,
    sanBusiness_pres_summarySignals, sanTraffic_pres_summarySignals,
    sanResources_pres_summarySignals]

theorem sanitize_impAcc_reduce (d : Doc) :
    (sanitizeAndImpute d).imputed.accessibilityScore =
      (sanAcc (sanSeo ⟨d, []⟩)).doc.imputed.accessibilityScore := by
  unfold sanitizeAndImpute
  rw [sanCoerce_eq, sanFinal_imputed, sanWatch_imputed,
    sanBusiness_imppres_accessibilityScore, sanTraffic_imppres_accessibilityScore,
    sanResources_imppres_accessibilityScore, sanPerf_imppres_accessibilityScore,
    sanSec_imppres_accessibilityScore]

theorem sanitize_impImg_reduce (d : Doc) :
    (sanitizeAndImpute d).imputed.totalImageKB =
      (sanResources (sanPerf (sanSec (sanAcc (sanSeo ⟨d, []⟩))))).doc.imputed.totalImageKB := by
  unfold sanitizeAndImpute
  rw [sanCoerce_eq, sanFinal_imputed, sanWatch_imputed,
    sanBusiness_imppres_totalImageKB, sanTraffic_imppres_totalImageKB]

theorem sanitize_impJs_reduce (d : Doc) :
    (sanitizeAndImpute d).imputed.totalJsKB =
      (sanResources (sanPerf (sanSec (sanAcc (sanSeo ⟨d, []⟩))))).doc.imputed.totalJsKB := by
  unfold sanitizeAndImpute
  rw [sanCoerce_eq, sanFinal_imputed, sanWatch_imputed,
    sanBusiness_imppres_totalJsKB, sanTraffic_imppres_totalJsKB]

theorem sanitize_resources_reduce (d : Doc) :
    (sanitizeAndImpute d).resources =
      (sanResources (sanPerf (sanSec (sanAcc (sanSeo ⟨d, []⟩))))).doc.resources := by
  unfold sanitizeAndImpute
  rw [sanCoerce_eq, sanFinal_resources, sanWatch_resources,
    sanBusiness_pres_resources, sanTraffic_pres_resources]

theorem sanitize_te_reduce (d : Doc) :
    (sanitizeAndImpute d).trafficEstimate =
      (sanTraffic (sanResources (sanPerf (sanSec (sanAcc (sanSeo ⟨d, []⟩)))))).doc.trafficEstimate := by
  unfold sanitizeAndImpute
  rw [sanCoerce_eq, sanFinal_trafficEstimate, sanWatch_trafficEstimate,
    sanBusiness_pres_trafficEstimate]

theorem sanSeo4_htmlMetrics (d : Doc) :
    (sanPerf (sanSec (sanAcc (sanSeo ⟨d, []⟩)))).doc.htmlMetrics = d.htmlMetrics := by
  rw [sanPerf_pres_htmlMetrics, sanSec_pres_htmlMetrics, sanAcc_pres_htmlMetrics,
    sanSeo_pres_htmlMetrics]

theorem sanSeo4_resources (d : Doc) :
    (sanPerf (sanSec (sanAcc (sanSeo ⟨d, []⟩)))).doc.resources = d.resources := by
  rw [sanPerf_pres_resources, sanSec_pres_resources, sanAcc_pres_resources,
    sanSeo_pres_resources]

theorem sanSeo5_trafficEstimate (d : Doc) :
    (sanResources (sanPerf (sanSec (sanAcc (sanSeo ⟨d, []⟩))))).doc.trafficEstimate =
      d.trafficEstimate := by
  rw [sanResources_pres_trafficEstimate, sanPerf_pres_trafficEstimate,
    sanSec_pres_trafficEstimate, sanAcc_pres_trafficEstimate, sanSeo_pres_trafficEstimate]

theorem sanSeo5_content (d : Doc) :
    (sanResources (sanPerf (sanSec (sanAcc (sanSeo ⟨d, []⟩))))).doc.content = d.content := by
  rw [sanResources_pres_content, sanPerf_pres_content, sanSec_pres_content,
    sanAcc_pres_content, sanSeo_pres_content]

/-
  Behaviour of the resource back-fill and traffic blocks.
-/

theorem sanResources_img (st : SanState) (r : Resources) (m : HtmlMetrics) (q : ℚ)
    (hr : st.doc.resources = some r) (hm : st.doc.htmlMetrics = some m)
    (hnull : r.totalImageKB = JVal.null) (hq : m.images = JVal.num q) :
    ∃ r', (sanResources st).doc.resources = some r' ∧
      r'.totalImageKB = JVal.num ((jround (qmul q 120) : ℤ) : ℚ) ∧
      (sanResources st).doc.imputed.totalImageKB =
        some (impMethod ("images_count * 120KB (images=" ++ qstr q ++ ")")) ∧
      ("totalImageKB missing -> estimated " ++ toString (jround (qmul q 120))
        ++ " KB from " ++ qstr q ++ " img(s) * 120KB.") ∈ (sanResources st).log := by
  simp only [sanResources, hr, imagesIsNumOf, imagesValOf, hm, hq, JVal.isNumber, jvalOrZero]
  have hg1 : r.totalImageKB = JVal.null ∧ True := ⟨hnull, trivial⟩
  rw [if_pos hg1]
  split
  · exact ⟨_, rfl, rfl, rfl, by simp⟩
  · exact ⟨_, rfl, rfl, rfl, by simp⟩

theorem sanResources_js (st : SanState) (r : Resources) (p : ℚ)
    (hr : st.doc.resources = some r)
    (hnull : r.totalJsKB = JVal.null) (hp : r.resourcesCount = JVal.num p) :
    ∃ r', (sanResources st).doc.resources = some r' ∧
      r'.totalJsKB = JVal.num ((jround (qmul p 15) : ℤ) : ℚ) ∧
      (sanResources st).doc.imputed.totalJsKB =
        some (impMethod ("resources_count * 15KB (resources=" ++ qstr p ++ ")")) ∧
      ("totalJsKB missing -> estimated " ++ toString (jround (qmul p 15))
        ++ " KB from resourcesCount * 15KB.") ∈ (sanResources st).log := by
  simp only [sanResources, hr]
  by_cases hg1 : r.totalImageKB = JVal.null ∧ imagesIsNumOf st.doc.htmlMetrics = true
  · rw [if_pos hg1, if_pos ⟨hnull, by simp [hp, JVal.isNumber]⟩]
    refine ⟨_, rfl, ?_, ?_, ?_⟩
    · simp [hp, jvalOrZero]
    · simp [hp, jvalStr, jvalOrZero]
    · simp [hp, jvalOrZero]
  · rw [if_neg hg1, if_pos ⟨hnull, by simp [hp, JVal.isNumber]⟩]
    refine ⟨_, rfl, ?_, ?_, ?_⟩
    · simp [hp, jvalOrZero]
    · simp [hp, jvalStr, jvalOrZero]
    · simp [hp, jvalOrZero]

theorem sanTraffic_fail (st : SanState) (t : TrafficEstimate)
    (ht : st.doc.trafficEstimate = some t)
    (hu : t.estimatedTrafficClass = some "Unknown")
    (hg : trafficGuess st.doc.content t = none) :
    (sanTraffic st).log =
        st.log ++ ["trafficEstimate could not be guessed (insufficient signals)."] ∧
      (sanTraffic st).doc.imputed.trafficEstimate =
        some (impReason "insufficient signals (no sitemap/pages/blog links)") := by
  simp only [sanTraffic, ht, hu, hg]
  rw [if_pos (by decide)]
  exact ⟨rfl, rfl⟩

/-
  Identity of each block on an already-stable state.
-/

theorem sanSeo_id (st : SanState)
    (h : ∀ ss, st.doc.summarySignals = some ss → inRangeNum ss.seoScore = true) :
    sanSeo st = st := by
  rcases hss : st.doc.summarySignals with _ | ss
  · simp [sanSeo, hss]
  · have hv := h ss hss
    have hnum := inRangeNum_isNumber _ hv
    have hcl := jclamp_of_inRange _ hv
    have hcond : (!ss.seoScore.isNumber || jlt ss.seoScore 0 || jgt ss.seoScore 100) = false := by
      rcases hx : ss.seoScore with _ | _ | q
      · rw [hx] at hnum; simp [JVal.isNumber] at hnum
      · rw [hx] at hnum; simp [JVal.isNumber] at hnum
      · rw [hx] at hv
        simp only [inRangeNum, Bool.and_eq_true, decide_eq_true_eq] at hv
        simp [JVal.isNumber, jlt, jgt, hx, not_lt.mpr hv.1, not_lt.mpr hv.2]
    simp only [sanSeo, hss, hcond, Bool.false_eq_true, if_false, hcl]
    rw [← hss]

theorem sanAcc_id (st : SanState)
    (hlh : (lhAccOf st.doc).isNumber = false)
    (h : ∀ ss, st.doc.summarySignals = some ss → inRangeNum ss.accessibilityScore = true) :
    sanAcc st = st := by
  rcases hss : st.doc.summarySignals with _ | ss
  · simp [sanAcc, hss]
  · have hv := h ss hss
    have hnum := inRangeNum_isNumber _ hv
    have hnn : ss.accessibilityScore ≠ JVal.null := by
      intro hx; rw [hx] at hnum; simp [JVal.isNumber] at hnum
    simp only [sanAcc, hss, hlh, Bool.false_eq_true, if_false, if_neg hnn,
      jclamp_of_inRange _ hv, hnum, Bool.not_true]
    rw [← hss]

theorem sanSec_id (st : SanState)
    (h : ∀ ss, st.doc.summarySignals = some ss → inRangeNum ss.securityScore = true) :
    sanSec st = st := by
  rcases hss : st.doc.summarySignals with _ | ss
  · simp [sanSec, hss]
  · have hv := h ss hss
    have hnum := inRangeNum_isNumber _ hv
    simp only [sanSec, hss, hnum, if_true, jclamp_of_inRange _ hv, Bool.not_true,
      Bool.false_eq_true, if_false]
    rw [← hss]

theorem sanPerf_id (st : SanState)
    (h : ∀ ss, st.doc.summarySignals = some ss → inRangeNum ss.performanceEstimate = true) :
    sanPerf st = st := by
  rcases hss : st.doc.summarySignals with _ | ss
  · simp [sanPerf, hss]
  · have hv := h ss hss
    have hnum := inRangeNum_isNumber _ hv
    simp only [sanPerf, hss, hnum, if_true, jclamp_of_inRange _ hv]
    rw [← hss]

theorem sanResources_id (st : SanState)
    (h : ∀ r, st.doc.resources = some r →
      (r.totalImageKB = JVal.null → imagesIsNumOf st.doc.htmlMetrics = false) ∧
      (r.totalJsKB = JVal.null → r.resourcesCount.isNumber = false)) :
    sanResources st = st := by
  rcases hr : st.doc.resources with _ | r
  · simp [sanResources, hr]
  · have hv := h r hr
    have hc1 : ¬(r.totalImageKB = JVal.null ∧ imagesIsNumOf st.doc.htmlMetrics = true) := by
      rintro ⟨h1, h2⟩
      rw [hv.1 h1] at h2
      exact nomatch h2
    simp only [sanResources, hr, if_neg hc1]
    have hc2 : ¬(r.totalJsKB = JVal.null ∧ r.resourcesCount.isNumber = true) := by
      rintro ⟨h1, h2⟩
      rw [hv.2 h1] at h2
      exact nomatch h2
    simp only [if_neg hc2]
    rw [← hr]

theorem sanTraffic_id (st : SanState) (h : classKnown st.doc.trafficEstimate = true) :
    sanTraffic st = st := by
  rcases ht : st.doc.trafficEstimate with _ | t
  · simp [sanTraffic, ht]
  · rw [ht] at h
    rcases hc : t.estimatedTrafficClass with _ | c
    · simp [classKnown, hc] at h
    · simp only [classKnown, hc, Bool.not_eq_true'] at h
      simp only [sanTraffic, ht, hc, h, Bool.false_eq_true, if_false]

theorem sanBusiness_id (st : SanState) (h : modelKnown st.doc.businessInsights = true) :
    sanBusiness st = st := by
  rcases hb : st.doc.businessInsights with _ | bi
  · simp [sanBusiness, hb]
  · rw [hb] at h
    rcases hm : bi.businessModel with _ | bm
    · simp [modelKnown, hm] at h
    · rcases hi : bm.inferredModel with _ | m
      · simp [modelKnown, hm, hi] at h
      · simp only [modelKnown, hm, hi, Bool.not_eq_true'] at h
        simp only [sanBusiness, hb, hm, hi, h, Bool.false_eq_true, if_false]

theorem sanWatch_id (st : SanState) (h : watchOk st.doc = true) : sanWatch st = st := by
  simp only [watchOk, Bool.and_eq_true] at h
  obtain ⟨⟨⟨h1, h2⟩, h3⟩, h4⟩ := h
  have hw : watchEntries st.doc = [] := by
    simp [watchEntries, strFalsy, h1, h2, h3, h4]
  simp [sanWatch, hw]

/-
  Whole-pipeline preservation of fields the sanitize pass never writes.
-/

theorem sanitize_pres_canonical (d : Doc) : (sanitizeAndImpute d).canonical = d.canonical := by
  unfold sanitizeAndImpute
  rw [sanCoerce_eq, sanFinal_canonical, sanWatch_canonical, sanBusiness_pres_canonical, sanTraffic_pres_canonical,
    sanResources_pres_canonical, sanPerf_pres_canonical, sanSec_pres_canonical, sanAcc_pres_canonical, sanSeo_pres_canonical]

theorem sanitize_pres_performance (d : Doc) : (sanitizeAndImpute d).performance = d.performance := by
  unfold sanitizeAndImpute
  rw [sanCoerce_eq, sanFinal_performance, sanWatch_performance, sanBusiness_pres_performance, sanTraffic_pres_performance,
    sanResources_pres_performance, sanPerf_pres_performance, sanSec_pres_performance, sanAcc_pres_performance, sanSeo_pres_performance]

theorem sanitize_pres_htmlMetrics (d : Doc) : (sanitizeAndImpute d).htmlMetrics = d.htmlMetrics := by
  unfold sanitizeAndImpute
  rw [sanCoerce_eq, sanFinal_htmlMetrics, sanWatch_htmlMetrics, sanBusiness_pres_htmlMetrics, sanTraffic_pres_htmlMetrics,
    sanResources_pres_htmlMetrics, sanPerf_pres_htmlMetrics, sanSec_pres_htmlMetrics, sanAcc_pres_htmlMetrics, sanSeo_pres_htmlMetrics]

theorem sanitize_pres_content (d : Doc) : (sanitizeAndImpute d).content = d.content := by
  unfold sanitizeAndImpute
  rw [sanCoerce_eq, sanFinal_content, sanWatch_content, sanBusiness_pres_content, sanTraffic_pres_content,
    sanResources_pres_content, sanPerf_pres_content, sanSec_pres_content, sanAcc_pres_content, sanSeo_pres_content]

theorem sanitize_pres_siteSignals (d : Doc) : (sanitizeAndImpute d).siteSignals = d.siteSignals := by
  unfold sanitizeAndImpute
  rw [sanCoerce_eq, sanFinal_siteSignals, sanWatch_siteSignals, sanBusiness_pres_siteSignals, sanTraffic_pres_siteSignals,
    sanResources_pres_siteSignals, sanPerf_pres_siteSignals, sanSec_pres_siteSignals, sanAcc_pres_siteSignals, sanSeo_pres_siteSignals]

theorem sanitize_pres_security (d : Doc) : (sanitizeAndImpute d).security = d.security := by
  unfold sanitizeAndImpute
  rw [sanCoerce_eq, sanFinal_security, sanWatch_security, sanBusiness_pres_security, sanTraffic_pres_security,
    sanResources_pres_security, sanPerf_pres_security, sanSec_pres_security, sanAcc_pres_security, sanSeo_pres_security]

theorem sanitize_pres_conversionSignals (d : Doc) : (sanitizeAndImpute d).conversionSignals = d.conversionSignals := by
  unfold sanitizeAndImpute
  rw [sanCoerce_eq, sanFinal_conversionSignals, sanWatch_conversionSignals, sanBusiness_pres_conversionSignals, sanTraffic_pres_conversionSignals,
    sanResources_pres_conversionSignals, sanPerf_pres_conversionSignals, sanSec_pres_conversionSignals, sanAcc_pres_conversionSignals, sanSeo_pres_conversionSignals]

theorem sanitize_pres_hosting (d : Doc) : (sanitizeAndImpute d).hosting = d.hosting := by
  unfold sanitizeAndImpute
  rw [sanCoerce_eq, sanFinal_hosting, sanWatch_hosting, sanBusiness_pres_hosting, sanTraffic_pres_hosting,
    sanResources_pres_hosting, sanPerf_pres_hosting, sanSec_pres_hosting, sanAcc_pres_hosting, sanSeo_pres_hosting]

theorem sanitize_pres_metadata (d : Doc) : (sanitizeAndImpute d).metadata = d.metadata := by
  unfold sanitizeAndImpute
  rw [sanCoerce_eq, sanFinal_metadata, sanWatch_metadata, sanBusiness_pres_metadata, sanTraffic_pres_metadata,
    sanResources_pres_metadata, sanPerf_pres_metadata, sanSec_pres_metadata, sanAcc_pres_metadata, sanSeo_pres_metadata]

theorem sanitize_pres_openGraph (d : Doc) : (sanitizeAndImpute d).openGraph = d.openGraph := by
  unfold sanitizeAndImpute
  rw [sanCoerce_eq, sanFinal_openGraph, sanWatch_openGraph, sanBusiness_pres_openGraph, sanTraffic_pres_openGraph,
    sanResources_pres_openGraph, sanPerf_pres_openGraph, sanSec_pres_openGraph, sanAcc_pres_openGraph, sanSeo_pres_openGraph]

theorem sanitize_bi_reduce (d : Doc) :
    (sanitizeAndImpute d).businessInsights =
      (sanBusiness (sanTraffic (sanResources (sanPerf (sanSec (sanAcc
        (sanSeo ⟨d, []⟩))))))).doc.businessInsights := by
  unfold sanitizeAndImpute
  rw [sanCoerce_eq, sanFinal_businessInsights, sanWatch_businessInsights]

theorem sanSeo6_businessInsights (d : Doc) :
    (sanTraffic (sanResources (sanPerf (sanSec (sanAcc (sanSeo ⟨d, []⟩)))))).doc.businessInsights =
      d.businessInsights := by
  rw [sanTraffic_pres_businessInsights, sanResources_pres_businessInsights,
    sanPerf_pres_businessInsights, sanSec_pres_businessInsights,
    sanAcc_pres_businessInsights, sanSeo_pres_businessInsights]

theorem sanSeo_noss (st : SanState) (h : st.doc.summarySignals = none) : sanSeo st = st := by
  simp [sanSeo, h]

theorem sanAcc_noss (st : SanState) (h : st.doc.summarySignals = none) : sanAcc st = st := by
  simp [sanAcc, h]

theorem sanSec_noss (st : SanState) (h : st.doc.summarySignals = none) : sanSec st = st := by
  simp [sanSec, h]

theorem sanPerf_noss (st : SanState) (h : st.doc.summarySignals = none) : sanPerf st = st := by
  simp [sanPerf, h]

theorem lhAccOf_congr (a b : Doc) (h : a.performance = b.performance) :
    lhAccOf a = lhAccOf b := by
  unfold lhAccOf
  rw [h]

theorem sanResources_stable (st : SanState) (r' : Resources)
    (hout : (sanResources st).doc.resources = some r') :
    (r'.totalImageKB = JVal.null → imagesIsNumOf st.doc.htmlMetrics = false) ∧
    (r'.totalJsKB = JVal.null → r'.resourcesCount.isNumber = false) := by
  rcases hr : st.doc.resources with _ | r
  · simp only [sanResources, hr] at hout
    exact nomatch hout
  · simp only [sanResources, hr] at hout
    by_cases hc1 : r.totalImageKB = JVal.null ∧ imagesIsNumOf st.doc.htmlMetrics = true
    · rw [if_pos hc1] at hout
      by_cases hc2 : r.totalJsKB = JVal.null ∧ r.resourcesCount.isNumber = true
      · rw [if_pos hc2] at hout
        obtain rfl : r' = _ := (Option.some_injective _ hout).symm
        refine ⟨fun h => ?_, fun h => ?_⟩ <;> simp at h
      · rw [if_neg hc2] at hout
        obtain rfl : r' = _ := (Option.some_injective _ hout).symm
        refine ⟨fun h => ?_, fun h => ?_⟩
        · simp at h
        · rcases hn : r.resourcesCount.isNumber with _ | _
          · simp [hn]
          · exact absurd ⟨h, hn⟩ hc2
    · rw [if_neg hc1] at hout
      by_cases hc2 : r.totalJsKB = JVal.null ∧ r.resourcesCount.isNumber = true
      · rw [if_pos hc2] at hout
        obtain rfl : r' = _ := (Option.some_injective _ hout).symm
        refine ⟨fun h => ?_, fun h => ?_⟩
        · rcases hn : imagesIsNumOf st.doc.htmlMetrics with _ | _
          · simp [hn]
          · exact absurd ⟨h, hn⟩ hc1
        · simp at h
      · rw [if_neg hc2] at hout
        have hrr : r = r' := Option.some_injective _ hout
        subst hrr
        refine ⟨fun h => ?_, fun h => ?_⟩
        · rcases hn : imagesIsNumOf st.doc.htmlMetrics with _ | _
          · simp [hn]
          · exact absurd ⟨h, hn⟩ hc1
        · rcases hn : r.resourcesCount.isNumber with _ | _
          · simp [hn]
          · exact absurd ⟨h, hn⟩ hc2

theorem sanitize_fixpoint (e : Doc) (h : stableDoc e = true) : sanitizeAndImpute e = e := by
  simp only [stableDoc, Bool.and_eq_true] at h
  obtain ⟨⟨⟨⟨⟨hss, hlh⟩, hres⟩, hte⟩, hbi⟩, hwo⟩ := h
  have hssP : ∀ ss, e.summarySignals = some ss →
      inRangeNum ss.seoScore = true ∧ inRangeNum ss.accessibilityScore = true ∧
      inRangeNum ss.securityScore = true ∧ inRangeNum ss.performanceEstimate = true := by
    intro ss hs
    rw [hs] at hss
    simpa [Bool.and_eq_true, and_assoc] using hss
  have hlh' : (lhAccOf e).isNumber = false := by
    simpa using hlh
  have hresP : ∀ r, e.resources = some r →
      (r.totalImageKB = JVal.null → imagesIsNumOf e.htmlMetrics = false) ∧
      (r.totalJsKB = JVal.null → r.resourcesCount.isNumber = false) := by
    intro r hr
    rw [hr] at hres
    simp only [Bool.and_eq_true, Bool.or_eq_true, Bool.not_eq_true',
      decide_eq_false_iff_not] at hres
    constructor
    · intro h1
      rcases hres.1 with h2 | h2
      · exact absurd h1 h2
      · exact h2
    · intro h1
      rcases hres.2 with h2 | h2
      · exact absurd h1 h2
      · exact h2
  have e1 : sanSeo ⟨e, []⟩ = ⟨e, []⟩ := sanSeo_id _ (fun ss hs => (hssP ss hs).1)
  have e2 : sanAcc ⟨e, []⟩ = ⟨e, []⟩ := sanAcc_id _ hlh' (fun ss hs => (hssP ss hs).2.1)
  have e3 : sanSec ⟨e, []⟩ = ⟨e, []⟩ := sanSec_id _ (fun ss hs => (hssP ss hs).2.2.1)
  have e4 : sanPerf ⟨e, []⟩ = ⟨e, []⟩ := sanPerf_id _ (fun ss hs => (hssP ss hs).2.2.2)
  have e5 : sanResources ⟨e, []⟩ = ⟨e, []⟩ := sanResources_id _ hresP
  have e6 : sanTraffic ⟨e, []⟩ = ⟨e, []⟩ := sanTraffic_id _ hte
  have e7 : sanBusiness ⟨e, []⟩ = ⟨e, []⟩ := sanBusiness_id _ hbi
  have e8 : sanWatch ⟨e, []⟩ = ⟨e, []⟩ := sanWatch_id _ hwo
  unfold sanitizeAndImpute
  rw [e1, e2, e3, e4, e5, e6, e7, e8, sanCoerce_eq]
  simp [sanFinal]

theorem sanitize_stable_out (d : Doc)
    (H1 : (lhAccOf d).isNumber = false)
    (H2 : ∀ ss, d.summarySignals = some ss →
      ss.accessibilityScore ≠ JVal.nan ∧ ss.performanceEstimate.isNumber = true)
    (H3 : classKnown d.trafficEstimate = true)
    (H4 : modelKnown d.businessInsights = true)
    (H5 : watchOk d = true) :
    stableDoc (sanitizeAndImpute d) = true := by
  have hperf : (sanitizeAndImpute d).performance = d.performance := sanitize_pres_performance d
  have hhm : (sanitizeAndImpute d).htmlMetrics = d.htmlMetrics := sanitize_pres_htmlMetrics d
  have hssOut : (match (sanitizeAndImpute d).summarySignals with
      | none => true
      | some ss => inRangeNum ss.seoScore && inRangeNum ss.accessibilityScore
          && inRangeNum ss.securityScore && inRangeNum ss.performanceEstimate) = true := by
    rcases hss : d.summarySignals with _ | ss
    · have hnone : (sanitizeAndImpute d).summarySignals = none := by
        rw [sanitize_ss_reduce, sanSeo_noss ⟨d, []⟩ hss, sanAcc_noss ⟨d, []⟩ hss,
          sanSec_noss ⟨d, []⟩ hss, sanPerf_noss ⟨d, []⟩ hss]
        exact hss
      rw [hnone]
    · obtain ⟨hnan, hperfnum⟩ := H2 ss hss
      obtain ⟨ss1, h1, h1seo, h1acc, h1sec, h1perf⟩ := sanSeo_out_ok ⟨d, []⟩ ss hss
      obtain ⟨ss2, h2, h2acc, h2seo, h2sec, h2perf⟩ :=
        sanAcc_out_ok (sanSeo ⟨d, []⟩) ss1 h1 (Or.inl (by rw [h1acc]; exact hnan))
      obtain ⟨ss3, h3, h3sec, h3seo, h3acc, h3perf⟩ :=
        sanSec_out_ok (sanAcc (sanSeo ⟨d, []⟩)) ss2 h2
      obtain ⟨ss4, h4, h4perfOk, h4perfIn, h4seo, h4acc, h4sec⟩ :=
        sanPerf_out_ok (sanSec (sanAcc (sanSeo ⟨d, []⟩))) ss3 h3
      have hssO : (sanitizeAndImpute d).summarySignals = some ss4 := by
        rw [sanitize_ss_reduce]
        exact h4
      rw [hssO]
      have hseo4 : inRangeNum ss4.seoScore = true := by
        rw [h4seo, h3seo, h2seo]
        exact h1seo
      have hacc4 : inRangeNum ss4.accessibilityScore = true := by
        rw [h4acc, h3acc]
        exact h2acc
      have hsec4 : inRangeNum ss4.securityScore = true := by
        rw [h4sec]
        exact h3sec
      have hperf4 : inRangeNum ss4.performanceEstimate = true := by
        refine h4perfIn ?_
        rw [h3perf, h2perf, h1perf]
        exact hperfnum
      simp [hseo4, hacc4, hsec4, hperf4]
  simp only [stableDoc, Bool.and_eq_true]
  refine ⟨⟨⟨⟨⟨?_, ?_⟩, ?_⟩, ?_⟩, ?_⟩, ?_⟩
  · exact hssOut
  · have hl : lhAccOf (sanitizeAndImpute d) = lhAccOf d := lhAccOf_congr _ _ hperf
    simp [hl, H1]
  · rcases hro : (sanitizeAndImpute d).resources with _ | r2
    · rfl
    · have hstab := sanResources_stable (sanPerf (sanSec (sanAcc (sanSeo ⟨d, []⟩)))) r2
        (by rw [← sanitize_resources_reduce]; exact hro)
      rw [sanSeo4_htmlMetrics] at hstab
      simp only [Bool.and_eq_true, Bool.or_eq_true, Bool.not_eq_true',
        decide_eq_false_iff_not]
      constructor
      · by_cases hnull : r2.totalImageKB = JVal.null
        · refine Or.inr ?_
          rw [hhm]
          exact hstab.1 hnull
        · exact Or.inl hnull
      · by_cases hnull : r2.totalJsKB = JVal.null
        · exact Or.inr (hstab.2 hnull)
        · exact Or.inl hnull
  · have hteq : (sanitizeAndImpute d).trafficEstimate = d.trafficEstimate := by
      rw [sanitize_te_reduce,
        sanTraffic_id _ (by rw [sanSeo5_trafficEstimate]; exact H3), sanSeo5_trafficEstimate]
    rw [hteq]
    exact H3
  · have hbiq : (sanitizeAndImpute d).businessInsights = d.businessInsights := by
      rw [sanitize_bi_reduce,
        sanBusiness_id _ (by rw [sanSeo6_businessInsights]; exact H4), sanSeo6_businessInsights]
    rw [hbiq]
    exact H4
  · have hwq : watchOk (sanitizeAndImpute d) = watchOk d := by
      unfold watchOk
      rw [sanitize_pres_canonical, sanitize_pres_metadata, sanitize_pres_openGraph,
        sanitize_pres_htmlMetrics]
    rw [hwq]
    exact H5

theorem sanitize_log_contains (d : Doc) (e : String)
    (he : e ∈ (sanBusiness (sanTraffic (sanResources (sanPerf (sanSec (sanAcc
      (sanSeo ⟨d, []⟩))))))).log) :
    e ∈ (sanitizeAndImpute d).imputationLog := by
  unfold sanitizeAndImpute
  rw [sanCoerce_eq, sanFinal_imputationLog, sanWatch_imputationLog, sanWatch_log_eq]
  exact List.mem_append_right _ he

/-- C10: `sanitizeAndImpute` returns the document it was given, updated in
place: every top-level field it does not write comes back unchanged, and
`imputationLog` is append-only - the log present before the call is a prefix
of the log after it, with the 'Missing: ...' entries and the local
imputation messages appended after it. -/
theorem C10_log_append_only (d : Doc) :
    (∃ added, (sanitizeAndImpute d).imputationLog = d.imputationLog ++ added) ∧
    (sanitizeAndImpute d).canonical = d.canonical ∧
    (sanitizeAndImpute d).performance = d.performance ∧
    (sanitizeAndImpute d).htmlMetrics = d.htmlMetrics ∧
    (sanitizeAndImpute d).content = d.content ∧
    (sanitizeAndImpute d).siteSignals = d.siteSignals ∧
    (sanitizeAndImpute d).security = d.security ∧
    (sanitizeAndImpute d).conversionSignals = d.conversionSignals ∧
    (sanitizeAndImpute d).hosting = d.hosting ∧
    (sanitizeAndImpute d).metadata = d.metadata ∧
    (sanitizeAndImpute d).openGraph = d.openGraph := by
  refine ⟨?_, sanitize_pres_canonical d, sanitize_pres_performance d,
    sanitize_pres_htmlMetrics d, sanitize_pres_content d, sanitize_pres_siteSignals d,
    sanitize_pres_security d, sanitize_pres_conversionSignals d, sanitize_pres_hosting d,
    sanitize_pres_metadata d, sanitize_pres_openGraph d⟩
  have hlog : (sanitizeAndImpute d).imputationLog =
      d.imputationLog ++
        (watchEntries (sanBusiness (sanTraffic (sanResources (sanPerf (sanSec (sanAcc
            (sanSeo ⟨d, []⟩))))))).doc ++
          (sanBusiness (sanTraffic (sanResources (sanPerf (sanSec (sanAcc
            (sanSeo ⟨d, []⟩))))))).log) := by
    unfold sanitizeAndImpute
    rw [sanCoerce_eq, sanFinal_imputationLog, sanWatch_imputationLog, sanWatch_log_eq,
      List.append_assoc, sanBusiness_pres_imputationLog, sanTraffic_pres_imputationLog,
      sanResources_pres_imputationLog, sanPerf_pres_imputationLog, sanSec_pres_imputationLog,
      sanAcc_pres_imputationLog, sanSeo_pres_imputationLog]
  exact ⟨_, hlog⟩

/-- C2 (amended): `sanitizeAndImpute` is not idempotent in general - with a
numeric lighthouse accessibility score a second pass re-blends the already
blended `accessibilityScore` and appends duplicate log entries (see the
counterexample).  It is idempotent on documents where (i) no numeric
lighthouse accessibility score is present, (ii) any stored
`accessibilityScore` is not NaN and the stored `performanceEstimate` is a
number, (iii) the traffic class is absent or a known non-'Unknown' label,
(iv) the business model is absent or a known non-'unknown' label, and
(v) the four watched metadata fields are present. -/
theorem C2_sanitize_idempotent_conditional (d : Doc)
    (H1 : (lhAccOf d).isNumber = false)
    (H2 : ∀ ss, d.summarySignals = some ss →
      ss.accessibilityScore ≠ JVal.nan ∧ ss.performanceEstimate.isNumber = true)
    (H3 : classKnown d.trafficEstimate = true)
    (H4 : modelKnown d.businessInsights = true)
    (H5 : watchOk d = true) :
    sanitizeAndImpute (sanitizeAndImpute d) = sanitizeAndImpute d :=
  sanitize_fixpoint _ (sanitize_stable_out d H1 H2 H3 H4 H5)

/-- C2 counterexample: on a document whose stored accessibilityScore is 100
while the lighthouse score is 0, the first sanitize pass blends to 50 and
the second pass blends again to 25 (and appends duplicate log entries), so
sanitize twice differs from sanitize once. -/
theorem C2_cex :
    sanitizeAndImpute (sanitizeAndImpute
      { summarySignals := some
          { seoScore := JVal.num 80, accessibilityScore := JVal.num 100,
            securityScore := JVal.num 50, performanceEstimate := JVal.num 70 },
        performance := some { accessibilityScore := JVal.num 0 } }) ≠
      sanitizeAndImpute
        { summarySignals := some
            { seoScore := JVal.num 80, accessibilityScore := JVal.num 100,
              securityScore := JVal.num 50, performanceEstimate := JVal.num 70 },
          performance := some { accessibilityScore := JVal.num 0 } } := by
  decide

theorem C2_sanitize_idempotent_conditional_witness :
    sanitizeAndImpute (sanitizeAndImpute
      { canonical := some "https://example.com",
        summarySignals := some
          { seoScore := JVal.num 80, accessibilityScore := JVal.num 60,
            securityScore := JVal.num 50, performanceEstimate := JVal.num 70 },
        htmlMetrics := some
          { title := some "T", description := some "D", h1_present := true,
            images := JVal.num 3 },
        metadata := some { title := some "T" },
        openGraph := some { ogTitle := some "T" },
        trafficEstimate := some { estimatedTrafficClass := some "Mid (50k–300k/mo)" },
        businessInsights := some { businessModel := some { inferredModel := some "saas" } } }) =
    sanitizeAndImpute
      { canonical := some "https://example.com",
        summarySignals := some
          { seoScore := JVal.num 80, accessibilityScore := JVal.num 60,
            securityScore := JVal.num 50, performanceEstimate := JVal.num 70 },
        htmlMetrics := some
          { title := some "T", description := some "D", h1_present := true,
            images := JVal.num 3 },
        metadata := some { title := some "T" },
        openGraph := some { ogTitle := some "T" },
        trafficEstimate := some { estimatedTrafficClass := some "Mid (50k–300k/mo)" },
        businessInsights := some { businessModel := some { inferredModel := some "saas" } } } :=
  C2_sanitize_idempotent_conditional _ (by decide)
    (by
      intro ss h
      injection h with h2
      subst h2
      exact ⟨by decide, by decide⟩)
    (by decide) (by decide) (by decide)

theorem sanitize_impSeo_reduce (d : Doc) :
    (sanitizeAndImpute d).imputed.seoScore = (sanSeo ⟨d, []⟩).doc.imputed.seoScore := by
  unfold sanitizeAndImpute
  rw [sanCoerce_eq, sanFinal_imputed, sanWatch_imputed,
    sanBusiness_imppres_seoScore, sanTraffic_imppres_seoScore,
    sanResources_imppres_seoScore, sanPerf_imppres_seoScore, sanSec_imppres_seoScore,
    sanAcc_imppres_seoScore]

/-- C5: when the stored `summarySignals.seoScore` is missing, NaN or outside
[0,100], sanitisation replaces it by the checklist score - 20 points for each
of: a title, a meta description, detected keywords, a sitemap, and an h1 -
records the imputation method 'heuristic: title/meta/h1/keywords/sitemap',
and a page with all five earns exactly 100. -/
theorem C5_seo_checklist (d : Doc) (ss : SummarySignals)
    (hss : d.summarySignals = some ss)
    (hbad : ss.seoScore = JVal.null ∨ ss.seoScore = JVal.nan ∨
      ∃ q, ss.seoScore = JVal.num q ∧ (q < 0 ∨ 100 < q)) :
    ssSeoOf (sanitizeAndImpute d) = some (JVal.num (seoChecklist d)) ∧
    (sanitizeAndImpute d).imputed.seoScore =
      some (impMethod "heuristic: title/meta/h1/keywords/sitemap") ∧
    (seoHasTitle d = true → seoHasDescription d = true → seoHasKeywords d = true →
      seoHasSitemap d = true → seoHasH1 d = true → seoChecklist d = 100) := by
  have hcond : (!ss.seoScore.isNumber || jlt ss.seoScore 0 || jgt ss.seoScore 100) = true := by
    rcases hbad with h | h | ⟨q, hq, hlt | hgt⟩
    · simp [h, JVal.isNumber]
    · simp [h, JVal.isNumber]
    · simp [hq, JVal.isNumber, jlt, jgt, hlt]
    · simp [hq, JVal.isNumber, jlt, jgt, hgt]
  have hinv := sanSeo_invalid ⟨d, []⟩ ss hss hcond
  have hcl := jclamp_of_inRange _ (seoChecklist_inRange d)
  refine ⟨?_, ?_, fun h1 h2 h3 h4 h5 => seoChecklist_all_hundred d h1 h2 h3 h4 h5⟩
  · unfold ssSeoOf
    rw [sanitize_ss_reduce, sanPerf_seo_pres, sanSec_seo_pres, sanAcc_seo_pres, hinv.1]
    simp [hcl]
  · rw [sanitize_impSeo_reduce, hinv.2]

theorem C5_seo_checklist_witness :
    ssSeoOf (sanitizeAndImpute
      { summarySignals := some {},
        htmlMetrics := some { title := some "T", description := some "D", h1_present := true },
        content := some { keywords := some ["k"] },
        siteSignals := some { hasSitemap := true } }) = some (JVal.num 100) := by
  have h := C5_seo_checklist
    { summarySignals := some {},
      htmlMetrics := some { title := some "T", description := some "D", h1_present := true },
      content := some { keywords := some ["k"] },
      siteSignals := some { hasSitemap := true } } {} rfl (Or.inl rfl)
  rw [h.1, h.2.2 (by decide) (by decide) (by decide) (by decide) (by decide)]

theorem sanResources_log_lift (d : Doc) (e : String)
    (he : e ∈ (sanResources (sanPerf (sanSec (sanAcc (sanSeo ⟨d, []⟩))))).log) :
    e ∈ (sanitizeAndImpute d).imputationLog := by
  apply sanitize_log_contains
  obtain ⟨a5, h5⟩ :=
    sanTraffic_log (sanResources (sanPerf (sanSec (sanAcc (sanSeo ⟨d, []⟩)))))
  obtain ⟨a6, h6⟩ :=
    sanBusiness_log (sanTraffic (sanResources (sanPerf (sanSec (sanAcc (sanSeo ⟨d, []⟩))))))
  rw [h6, h5]
  exact List.mem_append_left _ (List.mem_append_left _ he)

theorem sanTraffic_log_lift (d : Doc) (e : String)
    (he : e ∈ (sanTraffic (sanResources (sanPerf (sanSec (sanAcc (sanSeo ⟨d, []⟩)))))).log) :
    e ∈ (sanitizeAndImpute d).imputationLog := by
  apply sanitize_log_contains
  obtain ⟨a6, h6⟩ :=
    sanBusiness_log (sanTraffic (sanResources (sanPerf (sanSec (sanAcc (sanSeo ⟨d, []⟩))))))
  rw [h6]
  exact List.mem_append_left _ he

/-- C7 (amended): with a resources record present, a missing `totalImageKB`
is back-filled from a numeric `htmlMetrics.images` count as
`Math.round(images * 120)` - the rounded product, not the exact product
`images * 120` - with the imputed-method flag
'images_count * 120KB (images=N)' and the log entry; a missing `totalJsKB`
is back-filled from a numeric `resourcesCount` as
`Math.round(resourcesCount * 15)` with its flag and log entry. -/
theorem C7_resource_backfill (d : Doc) (r : Resources) (m : HtmlMetrics)
    (hr : d.resources = some r) (hm : d.htmlMetrics = some m) :
    (∀ q, r.totalImageKB = JVal.null → m.images = JVal.num q →
      ∃ r2, (sanitizeAndImpute d).resources = some r2 ∧
        r2.totalImageKB = JVal.num ((jround (qmul q 120) : ℤ) : ℚ) ∧
        (sanitizeAndImpute d).imputed.totalImageKB =
          some (impMethod ("images_count * 120KB (images=" ++ qstr q ++ ")")) ∧
        ("totalImageKB missing -> estimated " ++ toString (jround (qmul q 120))
          ++ " KB from " ++ qstr q ++ " img(s) * 120KB.")
          ∈ (sanitizeAndImpute d).imputationLog) ∧
    (∀ p, r.totalJsKB = JVal.null → r.resourcesCount = JVal.num p →
      ∃ r2, (sanitizeAndImpute d).resources = some r2 ∧
        r2.totalJsKB = JVal.num ((jround (qmul p 15) : ℤ) : ℚ) ∧
        (sanitizeAndImpute d).imputed.totalJsKB =
          some (impMethod ("resources_count * 15KB (resources=" ++ qstr p ++ ")")) ∧
        ("totalJsKB missing -> estimated " ++ toString (jround (qmul p 15))
          ++ " KB from resourcesCount * 15KB.")
          ∈ (sanitizeAndImpute d).imputationLog) := by
  have h4r : (sanPerf (sanSec (sanAcc (sanSeo ⟨d, []⟩)))).doc.resources = some r := by
    rw [sanSeo4_resources, hr]
  have h4m : (sanPerf (sanSec (sanAcc (sanSeo ⟨d, []⟩)))).doc.htmlMetrics = some m := by
    rw [sanSeo4_htmlMetrics, hm]
  constructor
  · intro q hnull hq
    obtain ⟨r2, hout, hval, himp, hmem⟩ := sanResources_img _ r m q h4r h4m hnull hq
    exact ⟨r2, by rw [sanitize_resources_reduce]; exact hout, hval,
      by rw [sanitize_impImg_reduce]; exact himp, sanResources_log_lift d _ hmem⟩
  · intro p hnull hp
    obtain ⟨r2, hout, hval, himp, hmem⟩ := sanResources_js _ r p h4r hnull hp
    exact ⟨r2, by rw [sanitize_resources_reduce]; exact hout, hval,
      by rw [sanitize_impJs_reduce]; exact himp, sanResources_log_lift d _ hmem⟩

theorem C7_resource_backfill_witness :
    ∃ r2, (sanitizeAndImpute
        { resources := some { resourcesCount := JVal.num 40 },
          htmlMetrics := some { images := JVal.num 10 } }).resources = some r2 ∧
      r2.totalImageKB = JVal.num 1200 ∧ r2.totalJsKB = JVal.num 600 := by
  have h := C7_resource_backfill
    { resources := some { resourcesCount := JVal.num 40 },
      htmlMetrics := some { images := JVal.num 10 } }
    { resourcesCount := JVal.num 40 } { images := JVal.num 10 } rfl rfl
  obtain ⟨r2, hout, hval, himp, hmem⟩ := h.1 10 rfl rfl
  obtain ⟨r3, hout3, hval3, himp3, hmem3⟩ := h.2 40 rfl rfl
  refine ⟨r2, hout, by rw [hval]; decide, ?_⟩
  have hr23 : r2 = r3 := by injection hout.symm.trans hout3
  rw [hr23, hval3]; decide

/-- C7 counterexample: with a fractional image count 1/7 the stored value is
`Math.round(1/7 * 120) = 17`, which differs from the exact product
`1/7 * 120 = 120/7`, so 'estimates totalImageKB as images x 120' holds only
after rounding. -/
theorem C7_cex :
    Option.map Resources.totalImageKB
        ((sanitizeAndImpute
          { resources := some {},
            htmlMetrics := some { images := JVal.num (mkRat 1 7) } }).resources) =
      some (JVal.num 17) ∧
    (mkRat 1 7 : ℚ) * 120 ≠ (17 : ℚ) := by
  refine ⟨by decide, ?_⟩
  rw [← qmul_eq]
  decide

/-- C3 (amended): reconciliation of `summarySignals.accessibilityScore` with
the lighthouse score.  When both are numbers and they differ by more than 20
points the stored value becomes the clamped ROUNDED average
`Math.round((acc + lh) / 2)` (not the exact average), recorded as a blend
heuristic; when they differ by at most 20 the exact clamped average is
stored and no imputation is recorded; when only the lighthouse score is a
number it is adopted (clamped and flagged); when only the stored score is a
number it is adopted (clamped, with no imputation recorded); when neither
yields a number and the stored value is missing, the default 50 is stored
and flagged. -/
theorem C3_accessibility_reconciliation (d : Doc) (ss : SummarySignals)
    (hss : d.summarySignals = some ss) :
    (∀ a l, ss.accessibilityScore = JVal.num a → lhAccOf d = JVal.num l →
      qabs (qsub a l) > 20 →
      ssAccOf (sanitizeAndImpute d) =
        some (jclamp (JVal.num ((jround (qdivn (qadd a l) 2) : ℤ) : ℚ))) ∧
      (sanitizeAndImpute d).imputed.accessibilityScore =
        some (impMethod ("blend heuristic avg(" ++ qstr a ++ ", " ++ qstr l
          ++ ") due to diff " ++ qstr (qabs (qsub a l))))) ∧
    (∀ a l, ss.accessibilityScore = JVal.num a → lhAccOf d = JVal.num l →
      ¬(qabs (qsub a l) > 20) →
      ssAccOf (sanitizeAndImpute d) = some (jclamp (JVal.num (qdivn (qadd a l) 2))) ∧
      (sanitizeAndImpute d).imputed.accessibilityScore =
        d.imputed.accessibilityScore) ∧
    (∀ l, lhAccOf d = JVal.num l → ss.accessibilityScore.isNumber = false →
      ssAccOf (sanitizeAndImpute d) = some (jclamp (JVal.num l)) ∧
      (sanitizeAndImpute d).imputed.accessibilityScore =
        some (impMethod "from lighthouse accessibilityScore")) ∧
    (∀ a, (lhAccOf d).isNumber = false → ss.accessibilityScore = JVal.num a →
      ssAccOf (sanitizeAndImpute d) = some (jclamp (JVal.num a)) ∧
      (sanitizeAndImpute d).imputed.accessibilityScore =
        d.imputed.accessibilityScore) ∧
    ((lhAccOf d).isNumber = false → ss.accessibilityScore = JVal.null →
      ssAccOf (sanitizeAndImpute d) = some (JVal.num 50) ∧
      (sanitizeAndImpute d).imputed.accessibilityScore =
        some (impMethod "fallback default 50")) := by
  obtain ⟨ss1, hss1, hseoIn, hacc1, hsec1, hperf1⟩ := sanSeo_out_ok ⟨d, []⟩ ss hss
  have hlh1 : lhAccOf (sanSeo ⟨d, []⟩).doc = lhAccOf d :=
    lhAccOf_congr _ _ (sanSeo_pres_performance ⟨d, []⟩)
  have hred : ssAccOf (sanitizeAndImpute d) =
      Option.map SummarySignals.accessibilityScore
        ((sanAcc (sanSeo ⟨d, []⟩)).doc.summarySignals) := by
    unfold ssAccOf
    rw [sanitize_ss_reduce, sanPerf_acc_pres, sanSec_acc_pres]
  refine ⟨?_, ?_, ?_, ?_, ?_⟩
  · intro a l ha hl hd
    have hblend := sanAcc_blend_far (sanSeo ⟨d, []⟩) ss1 a l hss1
      (hacc1.trans ha) (hlh1.trans hl) hd
    constructor
    · rw [hred, hblend.1]; simp
    · rw [sanitize_impAcc_reduce, hblend.2]
  · intro a l ha hl hd
    have hblend := sanAcc_blend_near (sanSeo ⟨d, []⟩) ss1 a l hss1
      (hacc1.trans ha) (hlh1.trans hl) hd
    constructor
    · rw [hred, hblend.1]; simp
    · rw [sanitize_impAcc_reduce, hblend.2, sanSeo_imppres_accessibilityScore]
  · intro l hl hno
    have hlh : (lhAccOf (sanSeo ⟨d, []⟩).doc).isNumber = true := by
      rw [hlh1, hl]; rfl
    have hadopt := sanAcc_adopt (sanSeo ⟨d, []⟩) ss1 hss1 hlh (by rw [hacc1]; exact hno)
    constructor
    · rw [hred, hadopt.1]; simp [hlh1, hl]
    · rw [sanitize_impAcc_reduce, hadopt.2]
  · intro a hno ha
    have hnoLh := sanAcc_noLh (sanSeo ⟨d, []⟩) ss1 hss1 (by rw [hlh1]; exact hno)
    constructor
    · rw [hred, hnoLh.1]; simp [hacc1, ha]
    · rw [sanitize_impAcc_reduce,
        hnoLh.2.2 (by rw [hacc1, ha]; rfl), sanSeo_imppres_accessibilityScore]
  · intro hno hnull
    have hnoLh := sanAcc_noLh (sanSeo ⟨d, []⟩) ss1 hss1 (by rw [hlh1]; exact hno)
    have h50 : jclamp (JVal.num 50) = JVal.num 50 := by decide
    constructor
    · rw [hred, hnoLh.1]; simp [hacc1, hnull, h50]
    · rw [sanitize_impAcc_reduce]
      exact hnoLh.2.1 (by rw [hacc1, hnull]; rfl)

theorem C3_accessibility_reconciliation_witness :
    ssAccOf (sanitizeAndImpute
      { summarySignals := some { accessibilityScore := JVal.num 0 },
        performance := some { accessibilityScore := JVal.num 21 } }) =
      some (jclamp (JVal.num ((jround (qdivn (qadd 0 21) 2) : ℤ) : ℚ))) :=
  ((C3_accessibility_reconciliation
    { summarySignals := some { accessibilityScore := JVal.num 0 },
      performance := some { accessibilityScore := JVal.num 21 } }
    { accessibilityScore := JVal.num 0 } rfl).1 0 21 rfl rfl (by decide)).1

/-- C3 counterexample: with stored score 0 and lighthouse score 21 the
difference exceeds 20 and the stored result is Math.round(10.5) = 11, not
the exact average 10.5, so 'replaced by the average of the two' holds only
after rounding. -/
theorem C3_cex :
    ssAccOf (sanitizeAndImpute
      { summarySignals := some { accessibilityScore := JVal.num 0 },
        performance := some { accessibilityScore := JVal.num 21 } }) =
      some (JVal.num 11) ∧
    ((0 : ℚ) + 21) / 2 ≠ (11 : ℚ) := ⟨by decide, by norm_num⟩

/-- C9 (amended): after sanitisation, `seoScore`, `accessibilityScore` and
`securityScore` are numbers in [0,100] and `performanceEstimate` is null or
a number in [0,100], provided the stored `accessibilityScore` is not NaN or
a numeric lighthouse accessibility score is available (a NaN stored score
with no lighthouse score passes through as NaN - see the counterexample). -/
theorem C9_score_range (d : Doc) (ss : SummarySignals)
    (hss : d.summarySignals = some ss)
    (hacc : ss.accessibilityScore ≠ JVal.nan ∨ (lhAccOf d).isNumber = true) :
    ∃ ssF, (sanitizeAndImpute d).summarySignals = some ssF ∧
      inRangeNum ssF.seoScore = true ∧
      inRangeNum ssF.accessibilityScore = true ∧
      inRangeNum ssF.securityScore = true ∧
      scoreOkB ssF.performanceEstimate = true := by
  obtain ⟨ss1, h1, hseoIn, hacc1, hsec1, hperf1⟩ := sanSeo_out_ok ⟨d, []⟩ ss hss
  have hlh1 : lhAccOf (sanSeo ⟨d, []⟩).doc = lhAccOf d :=
    lhAccOf_congr _ _ (sanSeo_pres_performance ⟨d, []⟩)
  have hok1 : ss1.accessibilityScore ≠ JVal.nan ∨
      (lhAccOf (sanSeo ⟨d, []⟩).doc).isNumber = true := by
    rcases hacc with h | h
    · exact Or.inl (by rw [hacc1]; exact h)
    · exact Or.inr (by rw [hlh1]; exact h)
  obtain ⟨ss2, h2, haccIn, hseo2, hsec2, hperf2⟩ :=
    sanAcc_out_ok (sanSeo ⟨d, []⟩) ss1 h1 hok1
  obtain ⟨ss3, h3, hsecIn, hseo3, hacc3, hperf3⟩ :=
    sanSec_out_ok (sanAcc (sanSeo ⟨d, []⟩)) ss2 h2
  obtain ⟨ss4, h4, hperfOk, hImpl, hseo4, hacc4, hsec4⟩ :=
    sanPerf_out_ok (sanSec (sanAcc (sanSeo ⟨d, []⟩))) ss3 h3
  refine ⟨ss4, ?_, ?_, ?_, ?_, hperfOk⟩
  · rw [sanitize_ss_reduce]; exact h4
  · rw [hseo4, hseo3, hseo2]; exact hseoIn
  · rw [hacc4, hacc3]; exact haccIn
  · rw [hsec4]; exact hsecIn

theorem C9_score_range_witness :
    ∃ ssF, (sanitizeAndImpute
        { summarySignals := some { accessibilityScore := JVal.nan },
          performance := some { accessibilityScore := JVal.num 80 } }).summarySignals =
        some ssF ∧
      inRangeNum ssF.seoScore = true ∧
      inRangeNum ssF.accessibilityScore = true ∧
      inRangeNum ssF.securityScore = true ∧
      scoreOkB ssF.performanceEstimate = true :=
  C9_score_range
    { summarySignals := some { accessibilityScore := JVal.nan },
      performance := some { accessibilityScore := JVal.num 80 } }
    { accessibilityScore := JVal.nan } rfl (Or.inr (by decide))

/-- C9 counterexample: a NaN stored accessibilityScore with no lighthouse
data survives sanitisation as NaN, so the scores are not 'never NaN'. -/
theorem C9_cex :
    ssAccOf (sanitizeAndImpute { summarySignals := some { accessibilityScore := JVal.nan } }) =
      some JVal.nan := by
  decide

theorem sanitize_impTraffic_reduce (d : Doc) :
    (sanitizeAndImpute d).imputed.trafficEstimate =
      (sanTraffic (sanResources (sanPerf (sanSec (sanAcc
        (sanSeo ⟨d, []⟩)))))).doc.imputed.trafficEstimate := by
  unfold sanitizeAndImpute
  rw [sanCoerce_eq, sanFinal_imputed, sanWatch_imputed, sanBusiness_imppres_trafficEstimate]

/-- C1 (amended): `estimateTrafficClass` bands with the fixed thresholds -
pages > 1000 or blog links > 100 or a resource footprint over 1000 yields
'High (500k+/mo)', otherwise pages > 200 or blog links > 20 yields
'Mid (50k–300k/mo)', and otherwise - including the no-signal case
pages = 0 and blogLinks = 0 - it yields 'Small (<50k/mo)', never 'Unknown'
(the 'Unknown' initialisation is dead).  Separately, when a document does
carry the class 'Unknown' and the sanitize-pass re-derivation fails, the
'could not be guessed' entry is appended to imputationLog and the gap is
flagged in `_imputed.trafficEstimate`. -/
theorem C1_traffic_banding (si : SitemapInfo) (rs : Option Resources) (blog : ℕ)
    (ml : Bool) (d : Doc) (t : TrafficEstimate) :
    ((decide (jvalOrZero si.pages > 1000) || decide (blog > 100) ||
        (match rs with | some r => jgt r.resourcesCount 1000 | none => false)) = true →
      (estimateTrafficClass si rs blog ml).estimatedTrafficClass = some "High (500k+/mo)") ∧
    ((decide (jvalOrZero si.pages > 1000) || decide (blog > 100) ||
        (match rs with | some r => jgt r.resourcesCount 1000 | none => false)) = false →
      (decide (jvalOrZero si.pages > 200) || decide (blog > 20)) = true →
      (estimateTrafficClass si rs blog ml).estimatedTrafficClass = some "Mid (50k–300k/mo)") ∧
    ((decide (jvalOrZero si.pages > 1000) || decide (blog > 100) ||
        (match rs with | some r => jgt r.resourcesCount 1000 | none => false)) = false →
      (decide (jvalOrZero si.pages > 200) || decide (blog > 20)) = false →
      (estimateTrafficClass si rs blog ml).estimatedTrafficClass = some "Small (<50k/mo)") ∧
    (d.trafficEstimate = some t → t.estimatedTrafficClass = some "Unknown" →
      trafficGuess d.content t = none →
      "trafficEstimate could not be guessed (insufficient signals)."
          ∈ (sanitizeAndImpute d).imputationLog ∧
        (sanitizeAndImpute d).imputed.trafficEstimate =
          some (impReason "insufficient signals (no sitemap/pages/blog links)")) := by
  refine ⟨?_, ?_, ?_, ?_⟩
  · intro h
    simp [estimateTrafficClass, h]
  · intro h1 h2
    simp [estimateTrafficClass, h1, h2]
  · intro h1 h2
    simp [estimateTrafficClass, h1, h2]
  · intro ht hu hg
    have ht5 : (sanResources (sanPerf (sanSec (sanAcc (sanSeo ⟨d, []⟩))))).doc.trafficEstimate =
        some t := by
      rw [sanSeo5_trafficEstimate, ht]
    have hc5 : trafficGuess
        (sanResources (sanPerf (sanSec (sanAcc (sanSeo ⟨d, []⟩))))).doc.content t = none := by
      rw [sanSeo5_content]; exact hg
    have hfail := sanTraffic_fail _ t ht5 hu hc5
    constructor
    · apply sanTraffic_log_lift
      rw [hfail.1]
      exact List.mem_append_right _ (by simp)
    · rw [sanitize_impTraffic_reduce, hfail.2]

theorem C1_traffic_banding_witness :
    (estimateTrafficClass { pages := JVal.num 1500 } none 0 false).estimatedTrafficClass =
      some "High (500k+/mo)" ∧
    "trafficEstimate could not be guessed (insufficient signals)."
      ∈ (sanitizeAndImpute
          { trafficEstimate := some { estimatedTrafficClass := some "Unknown" } }).imputationLog := by
  have h := C1_traffic_banding { pages := JVal.num 1500 } none 0 false
    { trafficEstimate := some { estimatedTrafficClass := some "Unknown" } }
    { estimatedTrafficClass := some "Unknown" }
  exact ⟨h.1 (by decide), (h.2.2.2 rfl rfl (by decide)).1⟩

/-- C1 counterexample: with no signal at all (pages = 0, blog links = 0, no
resource summary) `estimateTrafficClass` returns 'Small (<50k/mo)', not
'Unknown', and consequently the sanitize pass never appends the 'could not
be guessed' entry on this path. -/
theorem C1_cex :
    (estimateTrafficClass { pages := JVal.num 0 } none 0 false).estimatedTrafficClass =
      some "Small (<50k/mo)" ∧
    "trafficEstimate could not be guessed (insufficient signals)."
      ∉ (sanitizeAndImpute
          { trafficEstimate :=
              some (estimateTrafficClass { pages := JVal.num 0 } none 0 false) }).imputationLog := by
  exact ⟨by decide, by decide⟩

theorem find_ordering_eq (sc : ModelScores) :
    (modelOrdering.find? (fun k => scoresLookup sc k)).getD "unknown" =
      if sc.ecommerce then "ecommerce"
      else if sc.saas then "saas"
      else if sc.marketplace then "marketplace"
      else if sc.enterprise then "enterprise"
      else if sc.agency then "agency"
      else if sc.media then "media"
      else if sc.app_product then "app_product"
      else if sc.consulting then "consulting"
      else "unknown" := by
  rcases sc with ⟨e, s, m, a, me, ap, en, c⟩
  cases e <;> cases s <;> cases m <;> cases a <;> cases me <;> cases ap <;>
    cases en <;> cases c <;> rfl

/-- C6: `detectBusinessModel` picks the first category of the fixed priority
order [ecommerce, saas, marketplace, enterprise, agency, media, app_product,
consulting] whose signals match and falls back to 'unknown' when none do;
in particular signals matching both the ecommerce and the saas rules infer
'ecommerce'. -/
theorem C6_business_model_priority (sig : ModelSignals) :
    detectBusinessModelKind sig =
      (if (mkModelScores sig).ecommerce then "ecommerce"
       else if (mkModelScores sig).saas then "saas"
       else if (mkModelScores sig).marketplace then "marketplace"
       else if (mkModelScores sig).enterprise then "enterprise"
       else if (mkModelScores sig).agency then "agency"
       else if (mkModelScores sig).media then "media"
       else if (mkModelScores sig).app_product then "app_product"
       else if (mkModelScores sig).consulting then "consulting"
       else "unknown") ∧
    ((mkModelScores sig).ecommerce = true → (mkModelScores sig).saas = true →
      detectBusinessModelKind sig = "ecommerce") := by
  constructor
  · exact find_ordering_eq (mkModelScores sig)
  · intro he hs
    unfold detectBusinessModelKind
    rw [find_ordering_eq]
    simp [he]

theorem C6_business_model_priority_witness :
    detectBusinessModelKind { isShopify := true, hasSoftware := true } = "ecommerce" :=
  (C6_business_model_priority { isShopify := true, hasSoftware := true }).2
    (by decide) (by decide)

/-- C4 (amended): a lightweight fetch that throws or times out resolves to
null, in which case the browser-rendered html is used instead; but a
non-2xx response is NOT discarded - `analyzeWebsite` never reads `ok` or
`status`, so a non-2xx body of at least 1000 characters is used as the page
html. -/
theorem C4_fetch_fallback :
    (safeFetch FetchOutcome.thrown = none) ∧
    (∀ cr rhtml, chooseHtml none cr (some rhtml) =
      if rhtml.isEmpty then none else some rhtml) ∧
    (∀ t ok st rendered, 1000 ≤ t.length →
      chooseHtml (safeFetch (FetchOutcome.success t ok st)) false rendered = some t) := by
  refine ⟨rfl, ?_, ?_⟩
  · intro cr rhtml
    cases cr <;> rfl
  · intro t ok st rendered h
    have hne : t.isEmpty = false := by
      rcases ht : t.isEmpty with _ | _
      · rfl
      · rw [String.isEmpty_iff] at ht
        subst ht
        simp at h
    have hlt : decide (t.length < 1000) = false := by
      simp
      omega
    cases rendered <;> simp [chooseHtml, safeFetch, hne, hlt]

theorem C4_fetch_fallback_witness :
    chooseHtml (safeFetch (FetchOutcome.success
        (String.mk (List.replicate 1000 (Char.ofNat 97))) false 404)) false none =
      some (String.mk (List.replicate 1000 (Char.ofNat 97))) :=
  C4_fetch_fallback.2.2 _ false 404 none (by set_option maxRecDepth 8192 in decide)

/-- C4 counterexample: a 1000-character body returned with a non-2xx status
(here 500) is kept as the page html even when a browser-rendered html is
available, so the body of a failed-status fetch IS used. -/
theorem C4_cex :
    chooseHtml (safeFetch (FetchOutcome.success
        (String.mk (List.replicate 1000 (Char.ofNat 97))) false 500)) false
        (some "RENDERED") =
      some (String.mk (List.replicate 1000 (Char.ofNat 97))) ∧
    String.mk (List.replicate 1000 (Char.ofNat 97)) ≠ "RENDERED" := by
  set_option maxRecDepth 8192 in exact ⟨by decide, by decide⟩

/-- C8 (amended): `estimateMargin` starts from the base band of the table
(saas 70-90, ecommerce 20-60, marketplace 10-40, agency 30-60, media 10-40,
consulting 30-60, anything else 20-60), adds the signed adjustments
(-10 for shopify/wordpress, +5 for nextjs/react, -5 for a script payload
over 2000 KB, +3 for cloudflare), clamps the band to [0,100], and reports
the ROUNDED midpoint of the adjusted band - `Math.round((low+high)/2)` with
a percent sign, not the exact midpoint - together with the band. -/
theorem C8_margin_estimator (model : String) (tech : Tech) (rs : Option Resources) :
    (estimateMargin model tech rs).low =
        qmax 0 (qadd (marginBase model).1 (marginAdj tech rs)) ∧
    (estimateMargin model tech rs).high =
        qmin 100 (qadd (marginBase model).2 (marginAdj tech rs)) ∧
    (estimateMargin model tech rs).estimate =
        toString (jround (qdivn (qadd (estimateMargin model tech rs).low
          (estimateMargin model tech rs).high) 2)) ++ "%" ∧
    marginAdj tech rs = (if tech.shopify || tech.wordpress then -10 else 0) +
        (if tech.nextjs || tech.react then 5 else 0) +
        (if (match rs with
             | some r => r.totalJsKB.truthy && jgt r.totalJsKB 2000
             | none => false) then -5 else 0) +
        (if tech.cloudflare then 3 else 0) ∧
    marginBase "saas" = (70, 90) ∧ marginBase "ecommerce" = (20, 60) ∧
    marginBase "marketplace" = (10, 40) ∧ marginBase "agency" = (30, 60) ∧
    marginBase "media" = (10, 40) ∧ marginBase "consulting" = (30, 60) ∧
    marginBase "unknown" = (20, 60) := by
  refine ⟨rfl, rfl, rfl, ?_, by decide, by decide, by decide, by decide, by decide,
    by decide, by decide⟩
  unfold marginAdj
  rw [qadd_eq, qadd_eq, qadd_eq]

/-- C8 counterexample: for marketplace with shopify and a 2500 KB script
payload the adjusted band is [0,25] and the reported point estimate is the
rounded midpoint '13%', not the exact midpoint 12.5. -/
theorem C8_cex :
    (estimateMargin "marketplace" { shopify := true }
        (some { totalJsKB := JVal.num 2500 })).low = 0 ∧
    (estimateMargin "marketplace" { shopify := true }
        (some { totalJsKB := JVal.num 2500 })).high = 25 ∧
    (estimateMargin "marketplace" { shopify := true }
        (some { totalJsKB := JVal.num 2500 })).estimate = "13%" ∧
    qdivn (qadd 0 25) 2 ≠ (13 : ℚ) := by
  exact ⟨by decide, by decide, by decide, by decide⟩

end WebsiteAnalyzer
